import Mathlib

/-!
Verification development for the aquila HDL build/test driver.

The Python sources under `aquila/` are shallowly embedded: pure string and
list manipulations become Lean functions on `String`/`List`, Python `dict`
values whose insertion order matters become association lists, Python `set`
becomes a duplicate-free accumulation list (membership is what the code
observes), machine-level hashing (`hashlib.sha1`) is implemented bit-faithfully
over `Nat` with explicit 32-bit masking, and fallible operations return
`Except`/`Option`.  Python's `str.upper`/`str.lower` are modelled on the ASCII
fragment (identity elsewhere), which covers every string the programs build.
-/

set_option maxRecDepth 1000000

/-- Force a `Nat` to a numeral before continuing: keeps accumulators strict
under call-by-name kernel evaluation of the long hash computations below. -/
def forceNat {α : Sort u} (n : Nat) (k : Nat → α) : α :=
  match n with
  | 0 => k 0
  | p+1 => k (p+1)

/-! ## Source entries and the blueprint (`aquila/blueprint.py`) -/

/-- ASCII fragment of Python `str.upper` applied to one character. -/
def pyUpperChar (c : Char) : Char :=
  if 'a' ≤ c ∧ c ≤ 'z' then Char.ofNat (c.toNat - 32) else c

/-- Single-character `str.replace old new`. -/
def pyReplaceChar (old new c : Char) : Char :=
  if c = old then new else c

/-- The fileset normalization applied in `Entry.__init__`:
`str(fset).upper().replace(' ', '-').replace('_', '-')`. -/
def normalize_fset (s : String) : String :=
  String.mk (((s.data.map pyUpperChar).map (pyReplaceChar ' ' '-')).map (pyReplaceChar '_' '-'))

/-- One blueprint source item (`blueprint.Entry`), with `fset` already
normalized by construction. -/
structure Entry where
  fset : String
  lib : String
  path : String
  deps : List String
deriving DecidableEq, Repr

/-- The `Entry.__init__`: normalizes the fileset tag on construction. -/
def Entry.init (fset lib path : String) (deps : List String) : Entry :=
  ⟨normalize_fset fset, lib, path, deps⟩

/-- The `Entry.is_builtin`: membership in the three compilable filesets. -/
def Entry.is_builtin (e : Entry) : Bool :=
  e.fset == "VHDL" || e.fset == "VLOG" || e.fset == "SYSV"

/-- One record of a json-plan blueprint file. -/
structure BpRecord where
  fileset : String
  library : String
  filepath : String
  dependencies : List String

/-- The two parsed views of a blueprint listing file: rows of a tab-separated
plan, and records of a json plan.  (The byte-level parsing itself is a
boundary concern; `Blueprint.__init__` consumes exactly these shapes.) -/
structure BpContent where
  tsvRows : List (String × String × String)
  jsonRecords : List BpRecord

/-- A missing blueprint file surfaces as Python's uncaught `FileNotFoundError`
from `open`. -/
inductive LoadErr where
  | fileNotFound
deriving DecidableEq

/-- The `Blueprint.__init__` (given `path`/`plan` resolved): with a `tsv` plan each
row becomes an `Entry` with no dependencies; with a `json` plan each record
becomes an `Entry` carrying its dependency list; with any other plan tag the
entry list stays empty; a missing file raises. -/
def blueprint_load (plan : String) (file : Option BpContent) : Except LoadErr (List Entry) :=
  match file with
  | none => .error .fileNotFound
  | some content =>
    if plan == "tsv" then
      .ok (content.tsvRows.map (fun r => Entry.init r.1 r.2.1 r.2.2 []))
    else if plan == "json" then
      .ok (content.jsonRecords.map (fun d => Entry.init d.fileset d.library d.filepath d.dependencies))
    else
      .ok []

/-! ## Test modules and the test runner (`aquila/manifest.py`) -/

/-- The `manifest.TestModule`: generics keep insertion order, so they are an
association list. -/
structure TestModule where
  dut : Option String
  tb : Option String
  generics : List (String × String)
  seed : Option Nat
deriving DecidableEq, Repr

/-- The `str(v).replace('.', '-').replace('/', '-').replace('\\', '-')` applied to
one generic value inside `TestModule.get_dirname`. -/
def sanitize_value (v : String) : String :=
  String.mk (((v.data.map (pyReplaceChar '.' '-')).map (pyReplaceChar '/' '-')).map (pyReplaceChar '\\' '-'))

/-- The `gens` accumulator of `TestModule.get_dirname`. -/
def TestModule.gens_str (m : TestModule) : String :=
  m.generics.foldl (fun acc kv => acc ++ "_" ++ kv.1 ++ "=" ++ sanitize_value kv.2) ""

/-- The `seed` fragment of `TestModule.get_dirname`. -/
def TestModule.seed_str (m : TestModule) : String :=
  match m.seed with
  | none => ""
  | some s => "_seed=" ++ toString s

/-- The `TestModule.get_dirname`. -/
def TestModule.get_dirname (m : TestModule) : String :=
  let gens := m.gens_str
  let seed := m.seed_str
  let dir_name :=
    match m.dut, m.tb with
    | some d, some t => d ++ "__" ++ t
    | some d, none => d
    | none, some t => t
    | none, none => ""
  if seed.length > 0 ∨ gens.length > 0 then dir_name ++ "_" ++ gens ++ seed else dir_name

/-- The `TestModule.is_valid`. -/
def TestModule.is_valid (m : TestModule) : Bool :=
  m.dut.isSome || m.tb.isSome

/-- One trial of a test-table row. -/
structure TrialRow where
  generics : List (String × String)
  seed : Option Nat
deriving DecidableEq, Repr

/-- One row of the declarative test table. -/
structure TestRow where
  dut : Option String
  tb : Option String
  trials : List TrialRow
deriving DecidableEq, Repr

/-- The module-list construction of `TestRunner.__init__`: per row, an empty
trial list contributes one bare module, then every trial contributes one
module; afterwards a valid explicit override replaces the whole list. -/
def runnerModules (table : List TestRow) (default : Option TestModule) : List TestModule :=
  let ms := table.foldl
    (fun acc r =>
      (acc ++ (if r.trials.length = 0 then [⟨r.dut, r.tb, [], none⟩] else []))
        ++ r.trials.map (fun t => ⟨r.dut, r.tb, t.generics, t.seed⟩))
    []
  match default with
  | some d => if d.is_valid then [d] else ms
  | none => ms

/-- The spec's wording of one row's expansion (§3 Test Matrix): a row with
zero trials yields exactly one module with empty generics/seed; each trial
yields one module inheriting the row's dut/tb. -/
def specExpandRow (r : TestRow) : List TestModule :=
  if r.trials = [] then [⟨r.dut, r.tb, [], none⟩]
  else r.trials.map (fun t => ⟨r.dut, r.tb, t.generics, t.seed⟩)

/-! ## Run summary (`TestRunner.disp_*`, `ghdl.main`) -/

/-- The counters `TestRunner` mutates while trials run. -/
structure RunnerState where
  num_trials : Nat
  num_passed : Nat
deriving DecidableEq, Repr

/-- The `TestRunner.disp_trial_result`: a passing trial increments `num_passed`. -/
def disp_trial_result (st : RunnerState) (ok : Bool) : RunnerState :=
  if ok then { st with num_passed := st.num_passed + 1 } else st

/-- Run every trial result through the counter updates, starting from the
state `TestRunner.__init__` leaves behind. -/
def runTrials (results : List Bool) : RunnerState :=
  results.foldl disp_trial_result ⟨results.length, 0⟩

/-- The `TestRunner.disp_result`: overall verdict. -/
def disp_result_all_ok (st : RunnerState) : Bool :=
  st.num_passed == st.num_trials

/-- The `self.num_failed = self.num_trials - self.num_passed` in `disp_result`. -/
def RunnerState.num_failed (st : RunnerState) : Nat :=
  st.num_trials - st.num_passed

/-- The `ghdl.main`: `exit(101)` when `disp_result` reports failure, implicit
exit `0` otherwise. -/
def ghdl_main_exit (all_ok : Bool) : Nat :=
  if all_ok then 0 else 101

/-! ## Process execution (`aquila/process.py`) -/

/-- The `process.Status`. -/
inductive Status where
  | OKAY
  | FAIL
deriving DecidableEq, Repr

/-- The numeric value of a status (0 or 101). -/
def Status.value : Status → Nat
  | .OKAY => 0
  | .FAIL => 101

/-- What `subprocess.Popen` did for a `Command`: either the executable was
missing (`FileNotFoundError`), or a child ran and produced combined output
text and an exit code. -/
inductive SpawnOutcome where
  | notFound
  | launched (out : String) (code : Int)

/-- The result of `communicate()` on a pipe opened with `stdout=PIPE, stderr=STDOUT`:
stderr is merged into stdout, so the `err` component is always `None`. -/
def communicate (out : String) : Option String × Option String :=
  (some out, none)

/-- The `Command.output`: the captured text with a status.  The error branch
reading `err` is kept to mirror the source. -/
def Command.output (r : SpawnOutcome) : String × Status :=
  match r with
  | .notFound => ("", .FAIL)
  | .launched out _code =>
    let oe := communicate out
    match oe.2 with
    | some err => (err, .FAIL)
    | none =>
      match oe.1 with
      | some o => (o, .OKAY)
      | none => ("", .OKAY)

/-! ## Content-addressed target identity (`msim.gen_out_file_name`)

`gen_out_file_name` computes `'build/' + splitext(basename(path))[0] + '.' +
sha1(utf8(path)).hexdigest()[:8]`.  SHA-1 (RFC 3174) is implemented below over
`Nat`, with the sixteen-word schedule window, and the five working registers,
kept packed in single naturals so that kernel evaluation stays within the
accelerated arithmetic fragment; the four round groups get one loop each.
The test-vector theorems further down pin the implementation to the standard
digests. -/

def M32 : Nat := 0xFFFFFFFF

def M512 : Nat := 0xFFFFFFFFFFFFFFFFFFFFFFFFFFFFFFFFFFFFFFFFFFFFFFFFFFFFFFFFFFFFFFFFFFFFFFFFFFFFFFFFFFFFFFFFFFFFFFFFFFFFFFFFFFFFFFFFFFFFFFFFFFFFFFFF

/-- Pack a list of big-endian bytes into one Nat (first byte most
significant). -/
def packBytes (bs : List Nat) (acc : Nat) : Nat :=
  List.rec (motive := fun _ => Nat -> Nat)
    (fun a => a)
    (fun b _ ih a => ih (Nat.lor (Nat.shiftLeft a 8) b))
    bs acc

/-- Number of zero padding bytes SHA-1 appends after the 0x80 marker. -/
def padZeros (l : Nat) : Nat := (55 + 64 - l % 64) % 64

/-- The SHA-1 padded message as one big Nat together with its byte length. -/
def sha1padded (msg : List Nat) : Nat × Nat :=
  let l := msg.length
  let z := padZeros l
  (Nat.lor (Nat.shiftLeft (Nat.lor (Nat.shiftLeft (packBytes msg 0) 8) 0x80) (8 * z + 64)) (8 * l),
   l + 1 + z + 8)

/-- Rounds 0-15 (f = Ch, k = 5A827999): the next word comes off the top of the
rotating 512-bit window, which starts as the block itself. -/
def sha1L1 (fuel V a b c d e : Nat) : Nat :=
  Nat.rec (motive := fun _ => Nat -> Nat -> Nat -> Nat -> Nat -> Nat -> Nat)
    (fun V a b c d e => Nat.lor (Nat.shiftLeft V 160) (Nat.lor (Nat.shiftLeft a 128) (Nat.lor (Nat.shiftLeft b 96) (Nat.lor (Nat.shiftLeft c 64) (Nat.lor (Nat.shiftLeft d 32) e)))))
    (fun _ ih V a b c d e =>
      let w := Nat.shiftRight V 480
      ih (Nat.lor (Nat.land (Nat.shiftLeft V 32) M512) w)
        (Nat.land (Nat.add (Nat.add (Nat.add (Nat.add (Nat.lor (Nat.land (Nat.shiftLeft a 5) M32) (Nat.shiftRight a 27)) (Nat.lor (Nat.land b c) (Nat.land (Nat.xor b M32) d))) e) 0x5A827999) w) M32)
        a (Nat.lor (Nat.land (Nat.shiftLeft b 30) M32) (Nat.shiftRight b 2)) c d)
    fuel V a b c d e

/-- The schedule recurrence: w[i] = rotl1 (w[i-3] xor w[i-8] xor w[i-14] xor
w[i-16]), read out of the packed window. -/
def nextW (V : Nat) : Nat :=
  let x := Nat.land (Nat.xor (Nat.xor (Nat.shiftRight V 64) (Nat.shiftRight V 224)) (Nat.xor (Nat.shiftRight V 416) (Nat.shiftRight V 480))) M32
  Nat.lor (Nat.land (Nat.shiftLeft x 1) M32) (Nat.shiftRight x 31)

/-- Rounds 16-19 (f = Ch, k = 5A827999). -/
def sha1L2 (fuel V a b c d e : Nat) : Nat :=
  Nat.rec (motive := fun _ => Nat -> Nat -> Nat -> Nat -> Nat -> Nat -> Nat)
    (fun V a b c d e => Nat.lor (Nat.shiftLeft V 160) (Nat.lor (Nat.shiftLeft a 128) (Nat.lor (Nat.shiftLeft b 96) (Nat.lor (Nat.shiftLeft c 64) (Nat.lor (Nat.shiftLeft d 32) e)))))
    (fun _ ih V a b c d e =>
      let w := nextW V
      ih (Nat.lor (Nat.land (Nat.shiftLeft V 32) M512) w)
        (Nat.land (Nat.add (Nat.add (Nat.add (Nat.add (Nat.lor (Nat.land (Nat.shiftLeft a 5) M32) (Nat.shiftRight a 27)) (Nat.lor (Nat.land b c) (Nat.land (Nat.xor b M32) d))) e) 0x5A827999) w) M32)
        a (Nat.lor (Nat.land (Nat.shiftLeft b 30) M32) (Nat.shiftRight b 2)) c d)
    fuel V a b c d e

/-- Rounds 20-39 (f = parity, k = 6ED9EBA1). -/
def sha1L3 (fuel V a b c d e : Nat) : Nat :=
  Nat.rec (motive := fun _ => Nat -> Nat -> Nat -> Nat -> Nat -> Nat -> Nat)
    (fun V a b c d e => Nat.lor (Nat.shiftLeft V 160) (Nat.lor (Nat.shiftLeft a 128) (Nat.lor (Nat.shiftLeft b 96) (Nat.lor (Nat.shiftLeft c 64) (Nat.lor (Nat.shiftLeft d 32) e)))))
    (fun _ ih V a b c d e =>
      let w := nextW V
      ih (Nat.lor (Nat.land (Nat.shiftLeft V 32) M512) w)
        (Nat.land (Nat.add (Nat.add (Nat.add (Nat.add (Nat.lor (Nat.land (Nat.shiftLeft a 5) M32) (Nat.shiftRight a 27)) (Nat.xor (Nat.xor b c) d)) e) 0x6ED9EBA1) w) M32)
        a (Nat.lor (Nat.land (Nat.shiftLeft b 30) M32) (Nat.shiftRight b 2)) c d)
    fuel V a b c d e

/-- Rounds 40-59 (f = majority, k = 8F1BBCDC). -/
def sha1L4 (fuel V a b c d e : Nat) : Nat :=
  Nat.rec (motive := fun _ => Nat -> Nat -> Nat -> Nat -> Nat -> Nat -> Nat)
    (fun V a b c d e => Nat.lor (Nat.shiftLeft V 160) (Nat.lor (Nat.shiftLeft a 128) (Nat.lor (Nat.shiftLeft b 96) (Nat.lor (Nat.shiftLeft c 64) (Nat.lor (Nat.shiftLeft d 32) e)))))
    (fun _ ih V a b c d e =>
      let w := nextW V
      ih (Nat.lor (Nat.land (Nat.shiftLeft V 32) M512) w)
        (Nat.land (Nat.add (Nat.add (Nat.add (Nat.add (Nat.lor (Nat.land (Nat.shiftLeft a 5) M32) (Nat.shiftRight a 27)) (Nat.lor (Nat.lor (Nat.land b c) (Nat.land b d)) (Nat.land c d))) e) 0x8F1BBCDC) w) M32)
        a (Nat.lor (Nat.land (Nat.shiftLeft b 30) M32) (Nat.shiftRight b 2)) c d)
    fuel V a b c d e

/-- Rounds 60-79 (f = parity, k = CA62C1D6). -/
def sha1L5 (fuel V a b c d e : Nat) : Nat :=
  Nat.rec (motive := fun _ => Nat -> Nat -> Nat -> Nat -> Nat -> Nat -> Nat)
    (fun V a b c d e => Nat.lor (Nat.shiftLeft V 160) (Nat.lor (Nat.shiftLeft a 128) (Nat.lor (Nat.shiftLeft b 96) (Nat.lor (Nat.shiftLeft c 64) (Nat.lor (Nat.shiftLeft d 32) e)))))
    (fun _ ih V a b c d e =>
      let w := nextW V
      ih (Nat.lor (Nat.land (Nat.shiftLeft V 32) M512) w)
        (Nat.land (Nat.add (Nat.add (Nat.add (Nat.add (Nat.lor (Nat.land (Nat.shiftLeft a 5) M32) (Nat.shiftRight a 27)) (Nat.xor (Nat.xor b c) d)) e) 0xCA62C1D6) w) M32)
        a (Nat.lor (Nat.land (Nat.shiftLeft b 30) M32) (Nat.shiftRight b 2)) c d)
    fuel V a b c d e

/-- Window component of a packed loop result. -/
def getV (r : Nat) : Nat := Nat.shiftRight r 160

/-- Register components of a packed loop result. -/
def getA (r : Nat) : Nat := Nat.land (Nat.shiftRight r 128) M32

def getB (r : Nat) : Nat := Nat.land (Nat.shiftRight r 96) M32

def getC (r : Nat) : Nat := Nat.land (Nat.shiftRight r 64) M32

def getD (r : Nat) : Nat := Nat.land (Nat.shiftRight r 32) M32

def getE (r : Nat) : Nat := Nat.land r M32

/-- Compress one 512-bit block into the 160-bit chaining state. -/
def sha1block (h block : Nat) : Nat :=
  let h0 := Nat.shiftRight h 128
  let h1 := Nat.land (Nat.shiftRight h 96) M32
  let h2 := Nat.land (Nat.shiftRight h 64) M32
  let h3 := Nat.land (Nat.shiftRight h 32) M32
  let h4 := Nat.land h M32
  let r1 := sha1L1 16 block h0 h1 h2 h3 h4
  let r2 := sha1L2 4 (getV r1) (getA r1) (getB r1) (getC r1) (getD r1) (getE r1)
  let r3 := sha1L3 20 (getV r2) (getA r2) (getB r2) (getC r2) (getD r2) (getE r2)
  let r4 := sha1L4 20 (getV r3) (getA r3) (getB r3) (getC r3) (getD r3) (getE r3)
  let r5 := sha1L5 20 (getV r4) (getA r4) (getB r4) (getC r4) (getD r4) (getE r4)
  Nat.lor (Nat.shiftLeft (Nat.land (Nat.add h0 (getA r5)) M32) 128)
    (Nat.lor (Nat.shiftLeft (Nat.land (Nat.add h1 (getB r5)) M32) 96)
      (Nat.lor (Nat.shiftLeft (Nat.land (Nat.add h2 (getC r5)) M32) 64)
        (Nat.lor (Nat.shiftLeft (Nat.land (Nat.add h3 (getD r5)) M32) 32)
          (Nat.land (Nat.add h4 (getE r5)) M32))))

/-- Fold the compression over the blocks of the padded message, most
significant block first (`bits` is the remaining bit width). -/
def blocksLoop (fuel h m bits : Nat) : Nat :=
  Nat.rec (motive := fun _ => Nat -> Nat -> Nat -> Nat)
    (fun hh _ _ => hh)
    (fun _ ih hh mm bs => ih (sha1block hh (Nat.land (Nat.shiftRight mm (bs - 512)) M512)) mm (bs - 512))
    fuel h m bits

/-- The SHA-1 digest of a byte list, as a 160-bit Nat. -/
def sha1 (msg : List Nat) : Nat :=
  let p := sha1padded msg
  blocksLoop (p.2 / 64) 0x67452301EFCDAB8998BADCFE10325476C3D2E1F0 p.1 (8 * p.2)

/-- UTF-8 encoding of one character (what `bytes(path, 'utf-8')` does). -/
def utf8Char (c : Char) : List Nat :=
  let v := c.toNat
  if v < 0x80 then [v]
  else if v < 0x800 then
    [0xC0 + v / 64, 0x80 + v % 64]
  else if v < 0x10000 then
    [0xE0 + v / 4096, 0x80 + v / 64 % 64, 0x80 + v % 64]
  else
    [0xF0 + v / 262144, 0x80 + v / 4096 % 64, 0x80 + v / 64 % 64, 0x80 + v % 64]

/-- The `bytes(s, 'utf-8')` as a list of byte values. -/
def utf8Bytes (s : String) : List Nat :=
  s.data.flatMap utf8Char

/-- Lowercase hex digit characters, as `hexdigest` prints them. -/
def hexChar (n : Nat) : Char :=
  if n < 10 then Char.ofNat (48 + n) else Char.ofNat (87 + n)

/-- The top `f` base-16 digits of `x` (viewing `x` as an `f`-digit number),
most significant digit first. -/
def hexN (f x : Nat) : List Char :=
  match f with
  | 0 => []
  | f+1 => hexChar (x / 16 ^ f % 16) :: hexN f (x % 16 ^ f)

/-- The `sha1(...).hexdigest()`: forty lowercase hex characters. -/
def hexdigest (msg : List Nat) : String :=
  String.mk (hexN 40 (sha1 msg))

/-- The `os.path.basename` for POSIX paths: the part after the last slash. -/
def basename (p : String) : String :=
  String.mk ((p.data.reverse.takeWhile (fun c => c ≠ '/')).reverse)

/-- Leading-dot count of a file name (`os.path.splitext` treats leading dots
as part of the root). -/
def leadingDots (l : List Char) : Nat :=
  (l.takeWhile (fun c => c = '.')).length

/-- Index of the last dot of a file name, if any. -/
def lastDotIdx (l : List Char) : Option Nat :=
  match (l.reverse.takeWhile (fun c => c ≠ '.')).length with
  | n => if n = l.length then none else some (l.length - n - 1)

/-- The `os.path.splitext(name)[0]` for a bare file name: cut at the last dot
when some earlier non-dot character exists, else keep the whole name. -/
def splitext_root (name : String) : String :=
  let l := name.data
  match lastDotIdx l with
  | none => name
  | some i => if leadingDots l < i then String.mk (l.take i) else name

/-- The `msim.gen_out_file_name`: `'build/' + splitext(basename(path))[0] + '.' +
sha1(bytes(path, 'utf-8')).hexdigest()[:8]`. -/
def gen_out_file_name (path : String) : String :=
  "build/" ++ splitext_root (basename path) ++ "." ++ (hexdigest (utf8Bytes path)).take 8

/-! ## The build-graph writer and the compilation loop

`aquila/ninja.py` (the `Ninja` class) is imported by `msim.py` and `ghdl.py`
but is not part of the sources available here, so it is modelled from the
spec (§3 Build Graph, §4.2). -/

/-- One build edge handed to the external executor. -/
structure NinjaEdge where
  rule : String
  outputs : List String
  inputs : List String
  implicitDeps : List String
  bindings : List (String × String)
deriving DecidableEq, Repr

/-- Spec §4.2: a dependency that was never emitted as an output is a fatal error. -/
inductive GraphError where
  | graphIntegrity
deriving DecidableEq, Repr

/-- The build-graph file under construction. -/
structure Ninja where
  defVars : List (String × String)
  rules : List (String × String)
  edges : List NinjaEdge
deriving DecidableEq, Repr

/-- Modelled from the spec: `Ninja.add_build` of the absent `aquila/ninja.py`.
Per §3 every implicit dependency target must already appear as an output of
an earlier edge, and per §4.2 a violation raises `GraphIntegrityError`
immediately during graph construction. -/
def Ninja.add_build (nj : Ninja) (rule : String) (outputs inputs deps : List String)
    (binds : List (String × String)) : Except GraphError Ninja :=
  if deps.all (fun d => (nj.edges.flatMap NinjaEdge.outputs).contains d) then
    .ok { nj with edges := nj.edges ++ [⟨rule, outputs, inputs, deps, binds⟩] }
  else
    .error .graphIntegrity

/-- ASCII fragment of Python `str.lower` applied to one character. -/
def pyLowerChar (c : Char) : Char :=
  if 'A' ≤ c ∧ c ≤ 'Z' then Char.ofNat (c.toNat + 32) else c

/-- Python `str.lower` (ASCII fragment): `entry.fset.lower()` picks the rule. -/
def pyLower (s : String) : String :=
  String.mk (s.data.map pyLowerChar)

/-- The entry loop shared by `Msim.prepare_compilation` and `Ghdl.prepare`:
skip non-builtin entries; for a builtin entry add `(lib, lib)` to the working
library set and append one edge. -/
def prepGo (es : List Entry) (nj : Ninja) (libs : List (String × String)) :
    Except GraphError (Ninja × List (String × String)) :=
  match es with
  | [] => .ok (nj, libs)
  | e :: rest =>
    if e.is_builtin then
      let libs' := if libs.contains (e.lib, e.lib) then libs else libs ++ [(e.lib, e.lib)]
      match nj.add_build (pyLower e.fset) [gen_out_file_name e.path] [e.path]
          (e.deps.map gen_out_file_name) [("lib", e.lib)] with
      | .ok nj' => prepGo rest nj' libs'
      | .error er => .error er
    else
      prepGo rest nj libs

/-- The initial build file `Msim.prepare_compilation` sets up before the
entry loop (`cmp_log` comes from the output directory). -/
def msimInitNinja (cmp_log : String) : Ninja :=
  { defVars := [("lib", "work"), ("opts", "-nologo -appendlog -logfile " ++ cmp_log)],
    rules := [("vhdl", "vcom ${opts} -2008 -work ${lib} ${in} -outf ${out}"),
              ("vlog", "vlog ${opts} -work ${lib} ${in} -outf ${out}"),
              ("sysv", "vlog ${opts} -sv -work ${lib} ${in} -outf ${out}")],
    edges := [] }

/-- The `Msim.prepare_compilation`: build the graph from the blueprint entries. -/
def prepare_compilation (cmp_log : String) (entries : List Entry) :
    Except GraphError (Ninja × List (String × String)) :=
  prepGo entries (msimInitNinja cmp_log) []

/-- The edge §4.2 prescribes for one builtin entry (rule = lowercased tag as
in the source; the claim text instead says the normalized tag itself). -/
def specEdge (e : Entry) : NinjaEdge :=
  { rule := pyLower e.fset,
    outputs := [gen_out_file_name e.path],
    inputs := [e.path],
    implicitDeps := e.deps.map gen_out_file_name,
    bindings := [("lib", e.lib)] }

/-! ## The collision corpus for the target-identity property

Ten thousand distinct synthetic paths `d#####/a.v`, all sharing the basename
`a.v` (the hard case for collision resistance).  The indices are listed in
increasing order of the paths' truncated digests, so that one linear
strictly-increasing scan certifies that all ten thousand identities are
distinct; the scan is split into five sub-lists to keep kernel evaluation
depth bounded. -/

/-- Decimal digit character. -/
def decChar (d : Nat) : Char := Char.ofNat (48 + d)

/-- Zero-padded five-digit decimal rendering. -/
def pad5 (n : Nat) : String :=
  String.mk [decChar (n / 10000 % 10), decChar (n / 1000 % 10), decChar (n / 100 % 10),
    decChar (n / 10 % 10), decChar (n % 10)]

/-- The i-th synthetic corpus path. -/
def c7Path (i : Nat) : String := "d" ++ pad5 i ++ "/a.v"

/-- The number a path's first eight digest characters encode: the top 32 bits
of the SHA-1 digest of the path's UTF-8 bytes. -/
def h32 (p : String) : Nat := Nat.shiftRight (sha1 (utf8Bytes p)) 128

/-- The `h32` of the i-th corpus path. -/
def hOf (i : Nat) : Nat := h32 (c7Path i)

/-- Strictly-increasing scan of hash values, forcing each element as it is
reached. -/
def chainB (prev : Nat) (l : List Nat) : Bool :=
  List.rec (motive := fun _ => Nat -> Bool)
    (fun _ => true)
    (fun x _ ih p => forceNat x (fun xv => Nat.blt p xv && ih xv))
    l prev

/-- Strictly-increasing scan of the hashes of one index sub-list. -/
def chunkOk (c : List Nat) : Bool :=
  match c with
  | [] => true
  | x :: rest => forceNat (hOf x) (fun xv => chainB xv (rest.map hOf))

/-- Corpus index sub-list 0 (in increasing truncated-digest order). -/
def c7Idx0 : List Nat := [
  3030, 8227, 5393, 1746, 971, 8039, 2146, 5826, 1877, 8009, 1635, 4591, 1557, 5072, 1576, 2759, 2998, 6002, 2573, 8435,
  9372, 9422, 5818, 1657, 7891, 7190, 9296, 4495, 3560, 7763, 7245, 9361, 2597, 5639, 7565, 7873, 4085, 3384, 7654, 2502,
  3614, 8614, 2898, 5834, 8544, 4780, 5602, 612, 1436, 2415, 901, 8113, 6379, 4411, 1745, 1493, 1839, 2787, 455, 4386,
  1807, 6571, 3591, 7744, 7801, 4515, 6423, 3623, 2901, 8942, 9903, 2001, 9022, 5305, 6813, 2356, 8537, 7806, 8093, 7278,
  8472, 9829, 5891, 6391, 35, 2430, 4597, 404, 3574, 6837, 9998, 8564, 5544, 793, 5228, 6340, 3243, 1479, 1974, 6945,
  3501, 8326, 8212, 940, 1715, 2993, 8275, 8679, 5895, 6434, 3115, 788, 4834, 7288, 4758, 3845, 6608, 9973, 152, 7491,
  2488, 9984, 4785, 2305, 9458, 2239, 524, 8780, 398, 4219, 5347, 3162, 5833, 9807, 2229, 1582, 5357, 1073, 2726, 2850,
  7745, 8738, 1304, 232, 6368, 3871, 4141, 44, 5938, 2469, 9280, 8886, 1804, 6910, 7033, 3663, 7198, 4742, 5423, 8567,
  4398, 221, 9310, 3489, 9538, 4381, 8674, 4625, 4582, 6171, 6951, 7237, 6389, 5675, 2256, 2386, 484, 4400, 8669, 8827,
  9385, 5319, 6001, 1652, 1225, 6207, 3306, 5488, 8444, 6676, 3937, 6733, 9121, 4039, 4788, 8922, 3739, 9571, 4522, 1806,
  2668, 1638, 8068, 1789, 8263, 5006, 8116, 2739, 3980, 9346, 1348, 7846, 8979, 713, 6103, 6109, 7070, 54, 7902, 2737,
  7664, 1014, 8931, 8353, 4126, 931, 5744, 5385, 2286, 4374, 1354, 5527, 1112, 3777, 5468, 7835, 9854, 2221, 6815, 3697,
  9034, 4507, 8016, 3012, 9669, 1614, 5774, 3469, 8125, 748, 2641, 9676, 6430, 1257, 5676, 4709, 7110, 6370, 678, 6980,
  8078, 6211, 6711, 5209, 5887, 211, 4863, 1226, 5543, 4686, 2868, 5719, 321, 8266, 7424, 9445, 2522, 6236, 7067, 5295,
  9238, 4704, 5024, 9454, 9114, 4678, 6347, 9951, 395, 2657, 7166, 937, 3664, 4512, 4304, 9630, 2178, 6039, 9140, 1891,
  9507, 7188, 2447, 7677, 4221, 1510, 7817, 2107, 8402, 1740, 4040, 1900, 8000, 3545, 7899, 5172, 5992, 5320, 4106, 1828,
  4892, 7366, 949, 2208, 7743, 7442, 1538, 6175, 6303, 8421, 8834, 9618, 6080, 6388, 4343, 4474, 3363, 7804, 1168, 4720,
  8928, 5035, 6363, 3333, 2055, 1684, 6758, 7118, 2307, 6433, 8672, 9493, 1077, 8065, 734, 1559, 1619, 8114, 7219, 9433,
  7177, 9240, 9741, 5379, 8063, 8476, 7421, 7870, 6902, 1788, 4086, 9749, 2648, 3712, 8991, 2718, 8407, 5078, 8005, 9933,
  6740, 934, 2642, 5885, 9056, 2689, 4164, 6926, 5726, 3504, 1447, 277, 5710, 3335, 5921, 71, 8366, 4714, 8524, 5815,
  8994, 4649, 3592, 8767, 1299, 8160, 7123, 4710, 3009, 6966, 8318, 4048, 2052, 6097, 9237, 6838, 2982, 6762, 7076, 1386,
  8240, 8533, 9400, 1506, 5170, 6060, 3733, 6495, 5300, 7117, 973, 1075, 6487, 8128, 3274, 6222, 6593, 9019, 9925, 4860,
  5961, 4052, 8137, 9508, 8191, 2459, 74, 6560, 2033, 9265, 9418, 2241, 3179, 7182, 4163, 7485, 9804, 9963, 652, 6859,
  7537, 4799, 5641, 1109, 5416, 831, 4072, 7692, 5044, 6738, 8369, 1926, 6280, 6271, 9506, 6090, 4593, 9232, 8417, 1916,
  8806, 5596, 1970, 597, 6262, 6809, 1560, 5358, 7263, 6335, 2685, 1391, 2639, 5266, 5732, 7215, 4323, 5607, 5256, 2398,
  8515, 1375, 6756, 3032, 692, 5504, 3222, 8965, 2458, 7153, 4407, 7467, 3223, 4224, 1646, 2991, 2361, 6297, 8518, 5140,
  2553, 933, 9819, 6641, 7425, 3693, 3790, 4149, 2264, 9531, 3695, 7444, 9964, 7217, 1392, 9308, 8331, 8549, 8352, 3650,
  1650, 2309, 367, 1361, 996, 3047, 7716, 2197, 7087, 1642, 3114, 4561, 9108, 2879, 9651, 3734, 1683, 6483, 7985, 9614,
  6331, 174, 4960, 9229, 1963, 7474, 676, 5813, 2584, 3199, 1885, 9139, 136, 3183, 4303, 1407, 6355, 4091, 1159, 1707,
  9561, 9476, 2510, 6266, 2537, 7004, 9893, 9715, 7657, 7315, 8475, 7650, 846, 1649, 248, 3191, 515, 4903, 9403, 6446,
  3801, 1898, 4519, 3439, 7417, 636, 533, 6397, 7573, 3235, 8406, 6432, 351, 2158, 5025, 4729, 2383, 1975, 4884, 946,
  2330, 2295, 4516, 3832, 7019, 5839, 308, 6761, 6868, 5039, 5835, 5236, 3461, 7262, 7330, 328, 7437, 1915, 6052, 5116,
  9599, 3944, 8224, 3701, 3546, 2504, 4667, 8820, 505, 9734, 4711, 806, 7962, 8542, 7449, 8804, 8349, 4662, 9801, 9553,
  1322, 157, 9957, 7473, 4744, 107, 3212, 82, 3915, 6709, 4307, 4965, 6107, 9427, 2666, 8514, 7223, 3394, 6544, 9378,
  3484, 6258, 6071, 140, 7074, 5841, 7115, 5117, 1156, 147, 2240, 9818, 6754, 93, 9133, 9175, 5490, 2978, 241, 1701,
  5656, 3399, 5694, 2917, 8214, 434, 2676, 2095, 9147, 3876, 3683, 6865, 638, 2633, 600, 2056, 1912, 8126, 7857, 3968,
  3323, 5138, 7639, 2603, 177, 5654, 8372, 9592, 8765, 4275, 5550, 3553, 3689, 3625, 9394, 2891, 9873, 4226, 3966, 7827,
  99, 2733, 9064, 5565, 9636, 3763, 9971, 9582, 9900, 9786, 2323, 9584, 581, 1069, 6781, 294, 4146, 999, 118, 716,
  295, 5271, 7803, 8450, 2234, 6955, 4148, 588, 6169, 3209, 7888, 8881, 3558, 6053, 8887, 6321, 7297, 3873, 7163, 2101,
  3890, 1706, 1374, 3646, 1496, 6899, 9921, 4770, 9652, 5149, 2340, 2478, 2287, 5976, 7586, 3371, 7271, 8471, 7484, 5898,
  5696, 6828, 7197, 4313, 6088, 9851, 6437, 7450, 9098, 508, 667, 1636, 9074, 1153, 6441, 8462, 502, 9487, 5817, 7325,
  8858, 9659, 1643, 8448, 4923, 329, 113, 5210, 7345, 1808, 7941, 2257, 5511, 5049, 1320, 4305, 6878, 8905, 4842, 2724,
  4693, 6988, 2318, 9471, 8079, 2254, 880, 2115, 1552, 8017, 9543, 8254, 6852, 6860, 7752, 8219, 7572, 9167, 7221, 3964,
  5326, 5928, 5531, 4405, 7575, 3593, 7310, 7062, 173, 9626, 9919, 8571, 5287, 5801, 4829, 2072, 9081, 1585, 4611, 4121,
  1987, 3244, 7593, 6675, 2709, 2364, 691, 3177, 7683, 4394, 9210, 402, 6779, 9249, 4865, 8357, 765, 5652, 4975, 9839,
  2747, 6502, 2799, 5787, 428, 4514, 5297, 1972, 9115, 5063, 8663, 980, 7609, 2187, 4358, 2126, 7715, 8294, 3289, 2315,
  559, 9945, 4558, 650, 4826, 1936, 2612, 1989, 6987, 5909, 155, 3844, 6667, 1132, 9849, 5364, 8297, 7770, 826, 2440,
  5912, 8058, 924, 7642, 3293, 6573, 6903, 552, 470, 3802, 8220, 2708, 3351, 2613, 5450, 3860, 32, 8636, 8236, 4467,
  5941, 9690, 537, 5327, 1991, 8463, 9764, 8245, 5902, 2035, 1441, 2338, 5150, 8586, 7438, 5521, 4982, 4747, 1000, 871,
  1835, 7476, 8770, 2659, 1508, 8565, 1239, 5996, 711, 1324, 4344, 2036, 701, 2608, 8751, 9934, 9504, 5284, 7641, 9061,
  1332, 6766, 9112, 46, 2526, 4419, 3107, 8327, 3139, 2220, 3121, 8593, 7155, 6562, 8316, 9330, 352, 2684, 7862, 8260,
  1269, 5241, 8176, 3123, 7832, 607, 6552, 5964, 4332, 6682, 4262, 8703, 9826, 6242, 347, 3641, 416, 1748, 4433, 3397,
  6454, 8968, 8812, 5682, 1622, 7303, 5094, 5966, 1422, 4503, 8464, 664, 4775, 6855, 1792, 9072, 755, 7150, 5137, 7208,
  8754, 1730, 2381, 306, 1556, 9200, 4802, 5883, 3450, 2328, 9605, 5176, 5822, 8792, 5930, 3603, 8645, 366, 1089, 2237,
  6499, 3898, 7687, 7380, 2514, 9966, 1611, 6066, 1563, 5646, 1883, 1656, 7508, 3213, 8094, 9759, 8658, 9823, 4968, 4246,
  9621, 9879, 6341, 9113, 9383, 8026, 6867, 4382, 4846, 1553, 5560, 1247, 53, 9576, 8469, 9572, 6833, 1267, 5784, 1770,
  6656, 4408, 3517, 4241, 6490, 2262, 4599, 5685, 3829, 584, 5770, 8411, 6442, 9198, 6550, 5579, 4840, 5226, 3803, 5959,
  521, 1366, 3998, 7331, 2895, 5963, 3906, 1124, 1958, 1408, 8193, 2772, 774, 9728, 4268, 9084, 1520, 8231, 1521, 5055,
  254, 9060, 9808, 9643, 977, 2017, 1133, 4312, 653, 8990, 9191, 4972, 2427, 554, 4372, 7527, 3083, 573, 5335, 3436,
  9806, 6121, 6734, 791, 18, 4296, 6182, 198, 2930, 889, 1017, 9832, 9965, 4650, 4094, 9100, 6554, 5216, 6501, 6654,
  4699, 8103, 1780, 4077, 4674, 5113, 2661, 7520, 4063, 1592, 9196, 400, 5426, 7679, 8889, 506, 2711, 3724, 3910, 7594,
  4493, 7132, 323, 2983, 5678, 7173, 9287, 5957, 7272, 9299, 7497, 5402, 7470, 6649, 2692, 5762, 9565, 1461, 1774, 1205,
  7121, 6125, 7244, 3526, 2515, 150, 3588, 8008, 3148, 841, 8585, 1339, 4488, 899, 3138, 1905, 8389, 6028, 4320, 8643,
  2292, 5757, 7638, 2509, 6881, 7383, 6582, 83, 464, 7913, 9816, 5060, 6540, 551, 1843, 2269, 4000, 9703, 4356, 4615,
  4272, 5194, 611, 2148, 3989, 1451, 2849, 8774, 608, 3976, 6889, 6221, 7693, 3186, 854, 6369, 4110, 5312, 2512, 5028,
  6401, 3258, 3936, 5465, 991, 2851, 7504, 7394, 158, 2270, 5201, 8580, 3164, 6270, 1577, 6345, 4680, 829, 1744, 2281,
  1067, 2380, 63, 2548, 6438, 9407, 9731, 7261, 7321, 5597, 5862, 6668, 7347, 9405, 2832, 2876, 8109, 6142, 1606, 2303,
  2872, 2616, 5716, 3190, 4431, 4556, 8685, 8617, 2594, 7058, 4315, 3314, 9225, 7622, 1265, 1462, 8041, 5178, 9245, 3960,
  1985, 5174, 3205, 282, 3940, 210, 595, 7260, 6328, 6145, 1139, 9739, 3852, 7737, 3473, 3536, 4046, 9847, 750, 5785,
  1818, 4430, 5218, 6985, 7914, 8600, 6507, 6146, 5529, 6304, 1022, 7376, 1691, 3421, 9688, 4537, 9874, 4827, 7369, 9922,
  812, 523, 2016, 2289, 21, 2071, 3106, 5296, 6512, 372, 610, 5792, 1543, 5599, 1190, 7390, 4944, 5904, 9126, 2103,
  6386, 3523, 1118, 766, 5321, 1759, 4719, 7065, 3192, 6967, 5132, 672, 818, 6929, 7017, 5136, 201, 4577, 1699, 675,
  1285, 9595, 9953, 5061, 4757, 184, 3157, 8257, 5375, 4528, 4103, 9653, 3068, 8159, 8290, 3957, 2312, 7411, 5571, 5582,
  8718, 1457, 5160, 4097, 5584, 9992, 9814, 6126, 6395, 6098, 2935, 5009, 7822, 8715, 4477, 5105, 3377, 2518, 4832, 699,
  5247, 3638, 1291, 2343, 1398, 2789, 2848, 3527, 1648, 2517, 4245, 4973, 1815, 5947, 1123, 8801, 129, 8365, 5288, 9911,
  2448, 2778, 2113, 684, 255, 8179, 4375, 1283, 3378, 8519, 9649, 4651, 9102, 3393, 8347, 2687, 4475, 6461, 6723, 8604,
  6725, 3354, 8768, 3954, 9379, 126, 6931, 6911, 609, 9077, 7243, 8644, 2949, 1852, 8282, 5934, 5091, 3339, 7596, 7813,
  3118, 1033, 8281, 2650, 6120, 7896, 4894, 3408, 1826, 135, 3206, 6375, 2224, 7295, 2152, 8456, 6710, 517, 3180, 2721,
  3673, 6645, 9179, 2399, 5913, 1998, 1637, 1429, 660, 5643, 6110, 356, 7836, 1234, 5879, 4623, 399, 448, 8616, 9713,
  9180, 4685, 7959, 3391, 3058, 3015, 5931, 6046, 5664, 548, 487, 2375, 273, 3834, 1440, 3836, 4404, 6583, 8626, 9583,
  6788, 2429, 6466, 9170, 1653, 5892, 5089, 3385, 9231, 9255, 1214, 4028, 1311, 5259, 5972, 5180, 1561, 5466, 3875, 9266,
  4847, 8410, 6686, 4977, 2931, 6075, 9103, 2137, 8325, 3392, 7514, 3872, 6014, 9446, 2365, 2630, 2047, 1034, 3755, 674,
  615, 3831, 9358, 3299, 3808, 6259, 7131, 3795, 9892, 8756, 6960, 2013, 8842, 2792, 1925, 4445, 9087, 2738, 5951, 8035,
  3284, 5598, 2347, 6135, 9386, 4841, 6572, 2697, 415, 8351, 8271, 5564, 4521, 5965, 4191, 4087, 4015, 1625, 5730, 5672,
  4532, 9763, 6625, 5363, 4643, 5775, 4701, 1879, 5968, 8337, 7454, 25, 4422, 6787, 1805, 463, 3441, 5901, 2359, 5086,
  2969, 4779, 5440, 7489, 5029, 5052, 1909, 3627, 5020, 739, 8556, 1140, 3973, 6101, 6569, 1209, 3765, 8502, 188, 5036,
  1880, 772, 4185, 4297, 4956, 2943, 8377, 8543, 9939, 8844, 6043, 7866, 1376, 6252, 3583, 110, 5314, 2204, 6519, 196,
  8632, 3087, 6384, 9461, 3002, 1295, 764, 8615, 6372, 51, 1369, 4718, 3885, 1832, 3941, 3816, 7795, 4004, 7353, 9227,
  9948, 2403, 4553, 7943, 9479, 9065, 4044, 6152, 6922, 4498, 823, 677, 3557, 6640, 1068, 3324, 9463, 1259, 4679, 513,
  1449, 4099, 5727, 2886, 1323, 160, 5795, 7932, 2842, 4904, 2959, 9926, 263, 7538, 2060, 4876, 3424, 8532, 8454, 90,
  5875, 1371, 6362, 5184, 2803, 1531, 3188, 3169, 8324, 1932, 3708, 2525, 6870, 3538, 2946, 379, 5825, 3406, 2831, 1726,
  2406, 1565, 226, 3418, 205, 6450, 1571, 7560, 8605, 1729, 8949, 5390, 547, 3210, 9324, 1055, 7799, 1703, 908, 8759,
  3053, 8460, 296, 4896, 3911, 2690, 1330, 1137, 9732, 4123, 7505, 6159, 4220, 3509, 8401, 9691, 1833, 3771, 6636, 2619,
  4661, 7456, 6879, 8798, 3698, 1262, 4889, 5828, 7023, 9490, 8924, 4098, 2660, 2985, 646, 5213, 8412, 4941, 8775, 3756,
  1984, 7931, 9619, 288, 3874, 6118, 9002, 8333, 2451, 4705, 1401, 4497, 9779, 3984, 7463, 5593, 1110, 494, 8048, 7660,
  671, 7990, 853, 3642, 1846, 704, 6030, 2384, 3620, 4438, 2749, 3931, 1037, 6750, 3276, 574, 433, 712, 6357, 2201,
  3610, 1021, 3893, 7453, 9217, 5983, 4954, 4388, 6338, 2366, 7741, 8106, 7020, 5477, 2637, 7831, 5739, 5780, 8409, 91,
  2247, 1191, 6713, 9917, 3271, 7144, 2145, 8790, 8283, 1024, 7209, 4634, 1183, 4081, 4672, 6228, 602, 5513, 8143, 3644,
  7885, 7164, 3879, 2223, 5673, 4109, 3918, 8084, 6038, 5083, 1858, 2490, 1424, 7728, 7995, 7991, 5838, 718, 4112, 1167,
  5033, 3433, 9638, 9895, 7137, 310, 2080, 1969, 6812, 3812, 2417, 5282, 1212, 3427, 9642, 3004, 3993, 7592, 9450, 4270]

/-- Corpus index sub-list 1 (in increasing truncated-digest order). -/
def c7Idx1 : List Nat := [
  8494, 2329, 5448, 7415, 6058, 9119, 3065, 4937, 7097, 7545, 3896, 2351, 8433, 3285, 787, 49, 1218, 9585, 1248, 1450,
  7859, 3104, 8307, 2688, 5155, 4824, 1258, 4263, 1738, 9268, 5840, 3569, 7189, 3198, 9423, 6163, 920, 9579, 4294, 7317,
  9677, 2489, 2796, 9043, 2105, 7974, 7175, 4806, 1847, 6256, 4734, 2373, 4324, 7958, 3892, 3229, 859, 5143, 4811, 1423,
  3414, 4737, 373, 3847, 9969, 1184, 6332, 6741, 6451, 5336, 770, 9284, 1302, 7645, 6312, 5, 4743, 6415, 2523, 9124,
  8019, 2261, 1594, 3453, 3153, 7446, 6979, 578, 794, 9514, 2940, 9457, 6240, 2283, 2108, 9559, 5023, 8062, 9416, 8439,
  7843, 3478, 4819, 3067, 6154, 1475, 7517, 4348, 1717, 9009, 7264, 9421, 7691, 6759, 3737, 6157, 2769, 7080, 2057, 8328,
  4353, 2390, 440, 5903, 8522, 4482, 599, 8676, 835, 7933, 6936, 6662, 8772, 2805, 1863, 8358, 9186, 3486, 8835, 4093,
  4233, 5927, 5745, 9466, 9152, 7982, 1851, 4979, 9600, 2908, 8067, 1519, 8141, 7820, 1953, 9247, 5099, 6707, 8680, 2144,
  3935, 1580, 8185, 7498, 6683, 245, 3869, 6023, 2802, 6465, 7026, 2581, 3342, 4096, 4479, 8507, 3494, 3021, 6891, 8242,
  3585, 6530, 3344, 9580, 5849, 873, 8696, 3609, 3997, 0, 9774, 9769, 9160, 2439, 3793, 518, 2948, 2905, 6, 5056,
  7872, 4062, 1393, 4202, 3459, 4376, 6158, 2134, 781, 7086, 7821, 7877, 9577, 1842, 2655, 4336, 6780, 4276, 1836, 6523,
  3181, 1458, 1468, 411, 3241, 3329, 2003, 3670, 2006, 3133, 1960, 2190, 6930, 7477, 9528, 8395, 8501, 9655, 6079, 9426,
  1781, 9464, 251, 1939, 2860, 527, 530, 5708, 6314, 8933, 2371, 2046, 6904, 2988, 1809, 7254, 5456, 6377, 642, 3705,
  8099, 2320, 5212, 768, 558, 342, 1911, 1937, 8642, 473, 5090, 1876, 3475, 4452, 6730, 9781, 349, 5520, 3317, 6752,
  2098, 7284, 1943, 3311, 268, 6772, 1130, 192, 2614, 3278, 3007, 872, 3506, 4529, 3320, 6528, 4472, 4179, 1767, 9588,
  4231, 9120, 4074, 8345, 480, 7269, 286, 3365, 4949, 5556, 2034, 5549, 9174, 1612, 8989, 5436, 4089, 6697, 2249, 2519,
  8321, 5396, 4874, 6070, 8031, 3760, 9537, 1235, 2609, 5854, 5403, 9518, 5373, 7925, 1734, 2596, 2865, 4830, 1081, 6873,
  6897, 1047, 1947, 7869, 8387, 9941, 2368, 5220, 9569, 6113, 5254, 4505, 9049, 4772, 4569, 6524, 7457, 9641, 3983, 2861,
  6854, 481, 7686, 491, 2177, 904, 3946, 7368, 6892, 1903, 3215, 8704, 7897, 2402, 4418, 217, 6016, 2413, 8609, 5144,
  5252, 3542, 8201, 5017, 3358, 694, 3265, 2705, 7570, 1418, 7910, 5301, 3866, 6439, 5614, 7727, 9228, 6526, 1434, 3135,
  2845, 6982, 5362, 249, 8661, 2151, 444, 3295, 4839, 9824, 9154, 103, 5665, 40, 1598, 1530, 4910, 2235, 9194, 5505,
  3684, 325, 8146, 1676, 2317, 4721, 4500, 6746, 640, 7410, 2538, 4309, 324, 3127, 5658, 8183, 5417, 1927, 4531, 4136,
  6919, 2065, 6300, 8253, 2166, 9442, 3681, 7579, 224, 4157, 5699, 9795, 2437, 580, 302, 9842, 987, 4350, 8474, 4713,
  8107, 7350, 8088, 5433, 4848, 4125, 6277, 2793, 3979, 5177, 2274, 3959, 1702, 1621, 6354, 1501, 1093, 1368, 5412, 4822,
  1443, 3828, 7068, 511, 417, 7412, 9940, 1917, 9930, 4161, 7623, 543, 9151, 5290, 8540, 4338, 8082, 8226, 3815, 9277,
  4875, 890, 5990, 6518, 9285, 1673, 9656, 9431, 410, 8582, 8590, 307, 1507, 6237, 5689, 2665, 839, 1679, 315, 7231,
  3952, 2374, 5130, 2521, 4423, 6291, 5798, 8566, 4108, 3721, 6200, 2673, 8572, 6452, 334, 7712, 7531, 9681, 1967, 6213,
  2205, 8280, 635, 5860, 1373, 8555, 1136, 5816, 9722, 4987, 2924, 4365, 1871, 5222, 799, 3843, 6069, 4557, 9578, 5608,
  493, 4222, 8150, 7912, 1522, 9912, 7637, 7488, 2062, 4548, 5540, 8422, 3094, 498, 1409, 3863, 780, 3428, 5257, 2322,
  439, 7541, 7608, 1103, 3315, 4198, 5135, 2996, 8698, 3360, 7501, 5962, 2372, 6824, 7232, 2878, 1825, 9738, 2069, 2088,
  1596, 2682, 9054, 8577, 5842, 5231, 6102, 9853, 4931, 9838, 5041, 7282, 8598, 4478, 5806, 9336, 8184, 7130, 6681, 8764,
  3464, 1913, 2501, 5233, 250, 6385, 7975, 916, 6334, 2058, 3197, 944, 2214, 751, 7876, 5401, 3454, 7511, 9780, 6323,
  5014, 8188, 3208, 1319, 8778, 8531, 651, 9301, 1213, 1238, 9340, 8006, 2686, 7937, 7762, 6057, 6245, 8443, 9162, 982,
  7106, 9389, 2971, 2834, 1696, 7305, 3967, 837, 2720, 4203, 903, 1229, 9644, 5587, 3049, 8523, 203, 7947, 9050, 4838,
  5754, 2956, 1260, 1544, 3109, 9057, 5329, 9091, 4645, 1578, 9574, 1857, 7548, 7172, 6527, 3929, 9420, 3743, 4660, 4243,
  5057, 1233, 4911, 8315, 6013, 3736, 720, 7707, 9278, 3525, 1711, 6299, 4596, 6478, 724, 8552, 8607, 272, 4646, 5765,
  7507, 4776, 8776, 9985, 6745, 865, 252, 8695, 1128, 1566, 9088, 243, 2341, 5169, 8498, 7934, 9988, 5399, 7589, 6941,
  2600, 9335, 7600, 4534, 6974, 2248, 7201, 5649, 7627, 3953, 9128, 7732, 2874, 9696, 8381, 1351, 8155, 9038, 3261, 1760,
  72, 3961, 3709, 1105, 8971, 5084, 5523, 717, 9975, 7792, 1482, 3117, 6880, 4636, 8578, 2432, 7854, 2354, 407, 8013,
  9944, 8386, 8011, 7521, 33, 3745, 2704, 3185, 2626, 8665, 6877, 9830, 3986, 2444, 8170, 8419, 2944, 8338, 5221, 4856,
  1276, 7363, 1020, 1359, 6223, 9865, 6414, 8158, 708, 9869, 4525, 5118, 6534, 6367, 4566, 5047, 7362, 6112, 7455, 6802,
  1532, 471, 5443, 3594, 6546, 616, 9678, 2251, 8248, 9347, 9141, 6579, 7631, 9106, 5418, 7071, 6576, 4915, 9250, 1665,
  8987, 2445, 489, 7871, 3917, 4, 7371, 6085, 1995, 3101, 247, 4054, 6601, 4442, 5773, 6033, 1779, 967, 9845, 2081,
  3232, 9254, 270, 3559, 1634, 1095, 3492, 9520, 4196, 5002, 9558, 1935, 3218, 3018, 4186, 8157, 9745, 9878, 5031, 5878,
  6776, 8059, 8378, 9016, 3533, 2846, 2925, 8396, 4100, 6283, 7178, 7708, 6835, 9700, 2421, 6128, 8729, 1224, 8262, 988,
  3303, 4080, 4872, 5010, 5644, 6243, 1372, 8892, 7039, 5123, 5645, 2786, 9089, 529, 5648, 22, 8255, 5110, 4654, 7006,
  7515, 3507, 6619, 9432, 5281, 1399, 3495, 5012, 8221, 9455, 1795, 2245, 5274, 3249, 3350, 5662, 2606, 3850, 5977, 6073,
  6378, 7162, 2989, 7671, 9594, 2961, 2731, 6578, 8816, 9005, 8371, 122, 435, 8561, 5111, 3674, 6567, 5062, 4266, 3134,
  7837, 5659, 4692, 4200, 6313, 20, 7384, 6521, 5837, 7723, 5831, 3758, 7355, 3978, 3027, 2425, 8909, 3028, 2771, 8052,
  9359, 8190, 2008, 5106, 3792, 1277, 5126, 7539, 3575, 9158, 9080, 8044, 4101, 9519, 1724, 5559, 1107, 7114, 9024, 945,
  4655, 1856, 689, 3679, 9581, 5943, 6251, 1641, 8553, 5445, 9974, 5491, 265, 4079, 8100, 6918, 3584, 1595, 6698, 3226,
  8151, 2577, 1982, 7618, 5693, 1483, 7875, 4402, 4546, 1605, 2076, 6570, 3145, 5230, 1670, 2333, 8912, 7352, 6514, 8693,
  2884, 808, 4905, 1914, 6611, 2030, 7503, 4152, 5626, 1951, 4426, 2859, 8859, 8592, 7658, 2965, 3672, 3151, 1591, 5351,
  9931, 4609, 3613, 4759, 2867, 3740, 782, 6989, 7359, 8, 1051, 6863, 88, 641, 541, 6096, 8286, 145, 681, 6190,
  6520, 3105, 1417, 7116, 1813, 3932, 1012, 1171, 4648, 3598, 9994, 4878, 34, 4849, 7568, 3242, 1135, 3042, 8272, 4700,
  3357, 6390, 4253, 7343, 7949, 522, 7646, 6944, 5783, 7718, 1923, 6807, 29, 2754, 75, 6061, 8599, 8857, 7286, 5338,
  5151, 6777, 4018, 2200, 3221, 6925, 2725, 6831, 5731, 1129, 5114, 860, 42, 2933, 7, 5636, 630, 9068, 1394, 1765,
  1289, 2179, 4919, 9811, 1421, 3340, 7721, 669, 9047, 5387, 2533, 4143, 4613, 6693, 803, 6170, 8829, 4697, 1686, 737,
  2026, 1867, 6727, 7652, 8803, 6273, 1243, 418, 7483, 6346, 159, 9682, 9177, 5824, 7605, 4013, 6006, 8453, 393, 244,
  8098, 9411, 827, 6599, 1589, 911, 4509, 501, 7950, 1071, 3521, 3252, 8629, 6600, 6422, 5229, 9889, 7802, 6358, 2452,
  4114, 6471, 6949, 5234, 3868, 6498, 7089, 7630, 7027, 8891, 1254, 5567, 6047, 1288, 5087, 1292, 5021, 5141, 4592, 6176,
  9887, 9978, 8429, 1202, 9857, 6834, 2182, 7629, 3081, 4277, 2466, 8628, 1370, 7675, 7102, 8050, 9345, 1300, 3296, 4670,
  7529, 4447, 9209, 7174, 3618, 7516, 6489, 5622, 5592, 2947, 9751, 4395, 6147, 5799, 6344, 2892, 6481, 5038, 5667, 3710,
  2242, 4513, 4230, 2547, 5179, 3653, 9434, 3327, 1751, 9860, 2267, 833, 1157, 7542, 868, 5435, 5986, 7200, 9737, 596,
  4629, 5702, 5276, 2424, 1346, 5374, 4377, 4001, 9862, 1197, 525, 4578, 5167, 3338, 7007, 1892, 3950, 2183, 3647, 5080,
  5258, 9129, 568, 2839, 105, 8823, 8878, 7816, 45, 1456, 9327, 85, 4880, 423, 8285, 3543, 736, 1066, 70, 4095,
  8229, 8348, 4688, 741, 4632, 3006, 6629, 2495, 6691, 1918, 6210, 6426, 1032, 7614, 5508, 6672, 6714, 6702, 2015, 3270,
  2893, 7730, 3833, 4575, 6965, 4796, 6078, 3409, 5442, 3604, 6084, 2157, 5265, 952, 3963, 3033, 8862, 7874, 797, 6736,
  1549, 7148, 7327, 5657, 1864, 9880, 9226, 7733, 5353, 3924, 168, 4267, 7922, 8156, 7734, 6632, 5173, 6400, 6898, 1315,
  6703, 3827, 3084, 3880, 4637, 1076, 5737, 2462, 6117, 3519, 363, 482, 4151, 8021, 4494, 8361, 891, 1994, 5372, 2079,
  3467, 4122, 2750, 4934, 2561, 2899, 2308, 4527, 3267, 4168, 4873, 8779, 4397, 7452, 8648, 8961, 3579, 1084, 3761, 9590,
  6529, 2703, 6462, 2855, 8440, 6089, 9474, 8782, 4836, 6402, 4128, 4978, 3389, 8241, 8154, 7047, 290, 5188, 9122, 2632,
  586, 929, 2185, 5202, 745, 1537, 2923, 2628, 2534, 9719, 2727, 2852, 95, 125, 5687, 9837, 1096, 5303, 4918, 66,
  7849, 3407, 3253, 5768, 932, 9071, 5650, 2311, 8970, 8261, 238, 4501, 2896, 9155, 5154, 8504, 291, 2748, 1893, 7611,
  7571, 700, 7829, 4795, 2165, 7749, 6004, 4440, 9503, 2094, 2352, 9425, 4390, 3477, 5994, 5583, 9907, 2426, 7685, 6843,
  626, 9755, 7767, 330, 4484, 8653, 5187, 5997, 161, 6517, 8380, 9453, 1435, 4933, 8004, 5030, 3388, 5251, 7057, 5383,
  1196, 5058, 298, 214, 2387, 3667, 9239, 6975, 4207, 5447, 884, 3013, 4362, 8492, 9169, 9828, 6020, 3894, 3368, 3026,
  8714, 1782, 8982, 7403, 2119, 4810, 8656, 5107, 8148, 8085, 598, 3172, 4745, 6932, 7009, 76, 8089, 2864, 970, 2611,
  9813, 2301, 3599, 670, 7191, 4850, 4142, 4986, 4927, 1523, 6760, 4895, 3444, 362, 3307, 7697, 8344, 7602, 6315, 9906,
  5088, 8551, 8856, 914, 5261, 311, 5369, 1572, 4468, 4647, 6165, 886, 6477, 1367, 7364, 8330, 1362, 5709, 4818, 3415,
  4669, 8177, 8647, 3687, 7989, 8115, 7434, 9961, 4967, 9041, 1492, 5793, 9744, 5753, 2410, 7046, 4033, 8601, 8554, 2651,
  2829, 3108, 5386, 209, 4465, 9756, 589, 7075, 5589, 1743, 9367, 2591, 8944, 4871, 4060, 8563, 6624, 8794, 8437, 7206,
  668, 6394, 7379, 790, 9137, 983, 499, 6322, 9972, 4803, 6272, 4657, 2583, 2494, 6436, 1910, 6229, 39, 7993, 7253,
  6796, 1881, 6409, 6721, 4565, 9694, 3796, 6194, 1242, 3717, 3597, 5304, 9370, 8701, 1378, 9224, 8434, 2566, 1803, 7561,
  1890, 5950, 4518, 2353, 4115, 1626, 7105, 6990, 4308, 3075, 6639, 9202, 6778, 4887, 7588, 1713, 5093, 6343, 7342, 3654,
  7540, 3111, 2032, 7755, 2837, 3806, 3287, 6224, 7978, 5873, 8436, 97, 1298, 9746, 9384, 9670, 7196, 1301, 1165, 9101,
  1155, 5371, 6605, 2294, 2456, 7048, 8424, 5604, 4003, 6983, 8898, 4034, 4608, 6887, 6505, 1888, 6595, 6715, 7000, 3780,
  1708, 1287, 6984, 4159, 6830, 7268, 5242, 1875, 2743, 7195, 5772, 2942, 7482, 9195, 4421, 5310, 1236, 7265, 9661, 9095,
  4845, 8573, 222, 7754, 2950, 6087, 7789, 7524, 7926, 9127, 1241, 663, 337, 9987, 7595, 5455, 7502, 7367, 2975, 557,
  5125, 50, 7300, 8003, 5728, 9782, 231, 2610, 9213, 8547, 5133, 5095, 4980, 6492, 3660, 8631, 6219, 9234, 9204, 9993,
  5239, 8147, 2378, 6373, 3037, 9428, 7971, 5802, 2701, 9325, 2679, 9999, 8043, 6785, 2819, 7773, 3304, 6981, 7462, 4707,
  6637, 8947, 8335, 7216, 7101, 2290, 7228, 2453, 8025, 2194, 8175, 332, 4392, 9692, 7576, 5059, 453, 1849, 8373, 9708,
  4214, 1798, 2580, 48, 6420, 2592, 5810, 7408, 3645, 3152, 807, 235, 8850, 754, 7249, 619, 1162, 3401, 4517, 5022,
  3580, 8747, 632, 3703, 4782, 5988, 2171, 1481, 9510, 5027, 4134, 7032, 3356, 6848, 2885, 753, 3051, 4379, 8135, 7994,
  4994, 4550, 7952, 8385, 2979, 2297, 5526, 7082, 3856, 8638, 2857, 2198, 3266, 2327, 567, 7230, 5330, 3143, 3432, 7583,
  7324, 6005, 3774, 6568, 9364, 4257, 8736, 9683, 9355, 7682, 7064, 1504, 2176, 2774, 2358, 7119, 4955, 3097, 8662, 8230,
  2698, 9272, 5926, 1812, 3855, 5735, 7604, 4462, 8014, 3678, 7954, 2313, 9596, 4389, 8612, 696, 8309, 4325, 2367, 2222,
  1476, 2570, 2284, 5043, 7705, 7904, 6212, 1536, 5858, 8405, 8336, 6690, 3268, 1573, 998, 3702, 340, 5894, 2209, 4436,
  4773, 4766, 6474, 1382, 9104, 7129, 3626, 3402, 7769, 9591, 5079, 583, 4541, 7008, 426, 8830, 7481, 9667, 4025, 9952,
  6197, 8302, 9356, 3088, 9207, 2476, 555, 5131, 8467, 2595, 3772, 4640, 2037, 9311, 7187, 7748, 1775, 9190, 9261, 1695]

/-- Corpus index sub-list 2 (in increasing truncated-digest order). -/
def c7Idx2 : List Nat := [
  9018, 2400, 2962, 9369, 644, 6099, 9698, 7908, 1689, 5129, 7183, 360, 3326, 9512, 8038, 2728, 892, 7229, 7396, 2186,
  7227, 1173, 5791, 256, 4329, 4526, 8480, 3103, 9273, 7193, 6661, 5076, 3841, 2569, 917, 775, 553, 5537, 9163, 1659,
  1623, 8449, 6666, 4735, 7564, 4067, 4150, 6768, 8354, 4298, 8735, 6621, 8136, 7111, 2599, 9171, 3835, 3355, 6822, 570,
  2992, 1705, 8757, 1630, 3516, 5484, 1514, 4140, 8199, 4280, 6168, 28, 8534, 6755, 3098, 7471, 5886, 3000, 9927, 9684,
  2232, 8144, 9279, 1122, 65, 7146, 6019, 1579, 883, 6366, 7882, 9424, 6282, 4921, 5851, 1687, 729, 5341, 5581, 8264,
  9730, 2779, 603, 1651, 3770, 7988, 7887, 3370, 200, 8484, 429, 5211, 7620, 7968, 6412, 4173, 5688, 3901, 9959, 5392,
  5610, 2546, 262, 8758, 9443, 9419, 6253, 1685, 4807, 7662, 7649, 7924, 9990, 1526, 8256, 6885, 3319, 5139, 9430, 5807,
  7518, 9645, 576, 1210, 5588, 7917, 7451, 3238, 7422, 8677, 8613, 3291, 3008, 7416, 2277, 2233, 1640, 5244, 912, 215,
  9203, 5955, 5464, 9544, 6217, 5863, 6612, 5148, 5359, 9758, 2702, 1859, 1966, 9983, 1603, 6153, 2018, 978, 5932, 1791,
  8984, 6419, 5224, 6007, 1345, 6055, 1206, 3189, 8258, 9835, 5911, 6592, 7107, 8866, 5289, 148, 9322, 9315, 2781, 5846,
  421, 1268, 1463, 5767, 3611, 7316, 449, 8165, 6551, 2664, 4082, 5760, 8748, 6797, 3144, 9794, 6486, 6418, 6233, 7225,
  3907, 601, 7751, 2873, 5492, 2441, 7833, 6427, 992, 8750, 2909, 3200, 4425, 8918, 1198, 6652, 7099, 4682, 9743, 6371,
  2068, 4209, 4794, 5096, 6059, 8957, 94, 8530, 7493, 8473, 9673, 6973, 5519, 7386, 9881, 811, 6722, 4761, 4877, 17,
  9337, 6642, 5459, 7696, 2370, 3166, 7771, 8825, 8111, 1861, 3943, 5217, 2827, 9905, 9391, 8588, 1192, 7445, 6914, 7651,
  9404, 3167, 2164, 5398, 3074, 9646, 3534, 7084, 441, 7699, 8623, 6790, 7031, 2170, 2882, 7612, 2434, 9221, 6177, 4781,
  6853, 5530, 6946, 8781, 6623, 5032, 3178, 7510, 8055, 5068, 9440, 1990, 3938, 989, 7459, 1050, 8880, 7213, 2271, 287,
  2674, 2939, 7094, 4130, 7050, 7312, 7381, 3838, 3500, 3505, 591, 9547, 1230, 2499, 2734, 719, 6301, 6333, 4901, 6907,
  8246, 4622, 5045, 2173, 1189, 1844, 4746, 3330, 9406, 9354, 639, 9915, 5474, 3839, 9803, 8863, 4235, 9773, 6281, 1328,
  5871, 3741, 8997, 7054, 130, 3951, 5790, 8149, 483, 7395, 8958, 5866, 9012, 2767, 817, 1783, 9267, 2585, 6247, 4225,
  8152, 1106, 9143, 9248, 1736, 1870, 1030, 8073, 7703, 4014, 3537, 1220, 5366, 733, 5219, 7621, 4292, 1174, 7753, 5104,
  1810, 9410, 2918, 5647, 9616, 9488, 7729, 2784, 2154, 7318, 4603, 5494, 4346, 4891, 2680, 1964, 9258, 4383, 8730, 339,
  4287, 7907, 7976, 6555, 5122, 6504, 6978, 9197, 2404, 3797, 3783, 9982, 2027, 3766, 9105, 8269, 4642, 303, 9557, 796,
  9241, 8860, 2752, 476, 7358, 1054, 5142, 6155, 8809, 7830, 9256, 7108, 2396, 997, 182, 4626, 2306, 6791, 9752, 1195,
  8455, 146, 6509, 2768, 850, 8710, 3923, 3767, 5882, 5050, 2963, 8996, 4808, 9482, 2643, 6558, 3970, 9321, 8684, 5811,
  2454, 1604, 3564, 8946, 6416, 8845, 3490, 2409, 7308, 4084, 6871, 5874, 1786, 5102, 5758, 8981, 7616, 1750, 5778, 9885,
  8908, 510, 5777, 7796, 7981, 9956, 3799, 5195, 863, 8127, 2227, 7186, 1633, 3655, 2907, 4997, 4612, 5984, 4798, 7562,
  8694, 8619, 8817, 3279, 1388, 6189, 1920, 9798, 7805, 8976, 3132, 5069, 9777, 5855, 742, 7782, 1009, 7669, 9675, 1747,
  492, 695, 4504, 4778, 8584, 7083, 3336, 3211, 7072, 6196, 1541, 9699, 1455, 5958, 3413, 723, 7772, 5157, 9509, 8999,
  7999, 2110, 6976, 8926, 4587, 8940, 927, 9156, 9648, 9067, 7603, 673, 7945, 7738, 8763, 8096, 181, 3751, 4238, 8399,
  3076, 1931, 1513, 5506, 512, 2259, 3895, 8691, 7419, 3005, 8296, 8894, 6826, 7280, 5820, 5751, 5572, 7935, 3069, 4470,
  4862, 8485, 2041, 8112, 3040, 3136, 2066, 4311, 9451, 7867, 1286, 6604, 6792, 2337, 9545, 467, 804, 3011, 9467, 7890,
  5015, 4983, 4656, 9344, 3168, 6728, 4459, 4073, 2188, 4071, 6295, 624, 228, 7740, 1058, 8233, 5637, 5108, 3972, 3449,
  1004, 514, 5013, 771, 8840, 5193, 8796, 1824, 1053, 1978, 4424, 3909, 9235, 1049, 6957, 6220, 3417, 3044, 4076, 3383,
  4300, 1337, 8737, 6547, 6769, 7632, 1185, 1677, 9270, 5628, 218, 5046, 8398, 6646, 2928, 5071, 5214, 6882, 1216, 8637,
  7400, 1042, 3567, 2838, 7496, 3272, 7689, 5503, 7546, 9942, 2477, 1416, 358, 3217, 5861, 8702, 2558, 6998, 7786, 5989,
  5356, 4378, 2858, 1178, 7756, 239, 8145, 8363, 2117, 3934, 1438, 690, 8697, 1003, 9702, 1979, 4240, 6658, 7429, 9052,
  921, 5624, 8276, 260, 8259, 7709, 5165, 5547, 7311, 5568, 4702, 1662, 888, 6302, 8678, 9554, 7850, 4635, 964, 2765,
  8959, 3556, 9469, 3640, 1850, 8095, 4957, 8594, 13, 503, 9489, 2061, 8732, 9552, 3112, 8936, 5681, 4727, 9785, 2250,
  56, 9436, 9898, 1101, 1954, 9220, 5283, 3382, 5515, 9539, 5232, 2897, 947, 8023, 6840, 8314, 8743, 8822, 7222, 4371,
  8793, 3513, 9718, 5181, 8425, 9146, 9760, 58, 6398, 9333, 3343, 6172, 7533, 9063, 4236, 3300, 2085, 2883, 4857, 5692,
  9483, 7775, 1616, 4559, 4414, 8163, 3853, 2763, 465, 4341, 5197, 8239, 2379, 1245, 7525, 3366, 5631, 1569, 4045, 5406,
  7326, 9326, 3550, 144, 376, 9070, 343, 7764, 9192, 4691, 4363, 3914, 7428, 9144, 2574, 1147, 7987, 3634, 3631, 2334,
  3130, 722, 1170, 2816, 2468, 8270, 5752, 6775, 6365, 4851, 9597, 747, 3913, 2954, 2092, 2900, 1116, 3341, 1944, 2029,
  6795, 3555, 4291, 4783, 2564, 7413, 2663, 8108, 3720, 2722, 7167, 4852, 958, 2981, 6590, 9437, 1906, 7014, 4866, 4184,
  14, 1766, 3822, 7234, 1358, 3316, 446, 4814, 6298, 7336, 7955, 8252, 6744, 6076, 4256, 4410, 7704, 5348, 1380, 4330,
  4065, 1297, 6804, 9632, 6851, 195, 8138, 2097, 9492, 3547, 3769, 579, 1045, 7109, 8234, 2557, 9717, 4458, 6563, 1026,
  9276, 9159, 4594, 1203, 2588, 7301, 3361, 2528, 2091, 2407, 1200, 857, 9989, 2116, 2549, 7388, 8468, 1681, 2342, 7606,
  5461, 9166, 8752, 8452, 637, 6954, 7591, 6234, 1251, 6136, 3080, 2780, 6819, 2889, 1303, 5223, 1957, 2336, 4271, 2520,
  4147, 3846, 6692, 4083, 1010, 613, 824, 331, 6162, 1525, 3035, 197, 4427, 6036, 474, 8308, 1723, 8802, 258, 3787,
  4947, 2974, 2461, 2675, 1929, 7255, 1494, 7736, 5836, 371, 7865, 67, 4864, 8734, 2910, 4227, 8479, 7185, 809, 6244,
  710, 7953, 1714, 2263, 5441, 9542, 4228, 7919, 4879, 9711, 1769, 6924, 5225, 3637, 5382, 1144, 8153, 4502, 9417, 8301,
  8332, 1617, 2193, 4005, 8329, 7674, 7879, 5199, 7154, 6320, 1469, 2475, 1752, 7487, 3612, 1261, 5325, 1143, 4476, 3141,
  1505, 4620, 3854, 1542, 8603, 9401, 2044, 8267, 3288, 3318, 7893, 8717, 592, 7844, 9856, 6720, 43, 6810, 6701, 3429,
  7287, 468, 9304, 2757, 7726, 5306, 9516, 545, 7547, 9494, 6049, 7942, 8033, 7757, 4886, 9555, 4326, 4042, 1001, 1015,
  1564, 1411, 6934, 8821, 2, 2713, 3442, 3727, 1755, 3987, 7892, 5907, 5915, 2014, 9664, 2282, 9082, 1152, 1326, 3902,
  4966, 2114, 9658, 4843, 1882, 6265, 8438, 9316, 3374, 9338, 8652, 1816, 4399, 5763, 654, 4520, 3387, 2555, 1814, 9566,
  4576, 2532, 327, 1997, 6093, 8690, 2127, 3540, 5381, 142, 9674, 3147, 2258, 4539, 6184, 5908, 5262, 861, 4683, 8225,
  9181, 5431, 4189, 8083, 5380, 6183, 2310, 3632, 4962, 7472, 186, 8265, 3236, 5163, 3250, 8525, 869, 5695, 9620, 3110,
  9859, 4041, 2505, 8819, 1811, 9603, 6665, 1013, 9575, 2497, 9499, 1119, 2926, 740, 7615, 6065, 2141, 5876, 5922, 4936,
  4480, 9161, 276, 175, 3022, 4916, 6455, 2693, 1524, 2096, 8867, 1092, 9257, 5786, 5339, 2474, 4258, 2994, 3621, 7684,
  3508, 6482, 5843, 5237, 2405, 4284, 31, 4218, 7466, 7824, 3460, 8914, 8854, 8488, 6618, 4008, 1597, 377, 154, 213,
  4909, 8322, 6214, 3629, 4536, 149, 7486, 3814, 5764, 3974, 6359, 528, 3696, 5973, 5175, 6767, 5119, 1307, 2053, 7980,
  2319, 1090, 9165, 7973, 469, 1655, 8874, 275, 2300, 7787, 5497, 9475, 4998, 6516, 3925, 422, 7666, 6564, 4584, 4614,
  8403, 8589, 7930, 4261, 2556, 1620, 1240, 1127, 6469, 6226, 6167, 5853, 9825, 8934, 8610, 1284, 5578, 162, 1023, 7490,
  2712, 6801, 4812, 9008, 6884, 2825, 348, 4687, 4483, 2349, 7036, 5302, 3908, 7133, 3096, 2634, 8139, 3711, 8952, 7670,
  3786, 7016, 9899, 5830, 2230, 8883, 7426, 9096, 3128, 1822, 4137, 3759, 7760, 2653, 4124, 5967, 9894, 1120, 5485, 2419,
  4698, 6678, 4914, 9291, 8071, 223, 746, 5944, 7035, 9373, 994, 6708, 4760, 1046, 8907, 685, 9495, 8712, 4882, 2213,
  3652, 2181, 1228, 1027, 4017, 1618, 3485, 3813, 3411, 1062, 4821, 5573, 3481, 8200, 4684, 6687, 5991, 9357, 1253, 3468,
  9908, 8208, 7061, 8097, 8576, 6565, 7625, 3985, 6953, 4740, 1719, 4764, 1102, 1207, 9800, 4385, 2695, 902, 3810, 8356,
  5809, 7663, 9890, 4058, 4837, 8923, 6235, 3566, 4985, 7584, 3819, 8024, 6861, 5253, 3562, 3457, 4601, 6844, 3811, 2811,
  4352, 2822, 6616, 8465, 5355, 8129, 4416, 2064, 9444, 1489, 6144, 1048, 5651, 1333, 2508, 3070, 5120, 7513, 9820, 1249,
  9459, 7044, 4545, 4380, 5576, 4570, 9775, 7207, 3662, 2952, 2302, 662, 9393, 3376, 3170, 9314, 8466, 2507, 104, 3039,
  8689, 2485, 4885, 6798, 1131, 5880, 4026, 5166, 1955, 8102, 2957, 8654, 2762, 4619, 3184, 240, 3750, 4456, 1041, 851,
  6805, 3036, 1, 1546, 6525, 3725, 3422, 3747, 8192, 8172, 5472, 5092, 212, 2629, 8911, 2552, 1308, 7049, 4607, 3126,
  1838, 5205, 4229, 4036, 4496, 4415, 2203, 1217, 1038, 9075, 6875, 2760, 5424, 9371, 4938, 7900, 8194, 1227, 4754, 9733,
  5328, 976, 4038, 6292, 6353, 7725, 9875, 9776, 4088, 8069, 7246, 2500, 7283, 4741, 8495, 3078, 4248, 2433, 3203, 8597,
  6042, 3140, 7351, 3619, 7815, 7250, 7441, 5759, 2449, 9747, 4768, 5987, 1056, 8548, 9556, 9505, 697, 9486, 2376, 7781,
  6580, 3502, 8649, 4922, 9877, 2853, 1698, 6449, 1644, 6614, 9954, 3870, 7883, 7258, 7041, 9529, 6326, 6174, 7179, 5354,
  6393, 3942, 6284, 1693, 7257, 257, 6896, 8787, 4630, 1865, 5011, 6782, 1562, 3933, 961, 5677, 1108, 319, 1511, 822,
  5275, 3807, 2099, 1201, 4703, 3535, 2455, 9409, 3995, 3865, 3544, 5299, 1290, 3174, 9521, 3410, 9439, 3529, 3688, 119,
  9447, 3899, 7601, 507, 8134, 5161, 4104, 7944, 7275, 5367, 539, 1540, 9028, 4793, 5168, 4259, 2815, 1934, 3947, 4583,
  7145, 6037, 8847, 4454, 6643, 4953, 123, 962, 9995, 3277, 3193, 4855, 1722, 8568, 3524, 3665, 3656, 4963, 8682, 8489,
  6411, 3089, 9318, 5668, 4075, 617, 2275, 828, 6937, 3661, 5618, 8379, 9840, 6026, 658, 8416, 9205, 9058, 8960, 6082,
  4242, 968, 3837, 6912, 5449, 2083, 4153, 9784, 7199, 8066, 1474, 5945, 7128, 5420, 1558, 5715, 4739, 466, 5632, 9852,
  9414, 6130, 3680, 3904, 1610, 9293, 5642, 5554, 2228, 6068, 6123, 2131, 2840, 6869, 6417, 1321, 9689, 7961, 1099, 4581,
  4208, 761, 5451, 4902, 7881, 79, 8022, 1587, 2791, 9246, 7393, 4178, 5613, 9624, 727, 3753, 9027, 4769, 777, 3862,
  8508, 9292, 5691, 5797, 2377, 9536, 4605, 8667, 98, 7464, 6942, 7599, 7798, 9947, 2385, 1437, 486, 7001, 1126, 2506,
  7439, 842, 5940, 7063, 7021, 2645, 3310, 8664, 2587, 1993, 1919, 5248, 6193, 6679, 9705, 3551, 756, 2043, 8869, 2195,
  7923, 1771, 8368, 92, 4950, 1497, 5293, 5779, 6917, 2835, 1263, 2350, 3175, 2646, 3719, 3286, 6858, 3522, 7998, 2345,
  6609, 216, 9855, 4251, 1402, 2617, 5881, 7710, 5781, 3263, 4364, 7194, 2980, 7509, 7276, 6825, 813, 5671, 5334, 9517,
  6849, 4274, 153, 7320, 9184, 876, 4135, 1281, 9282, 2836, 1940, 9568, 5370, 5498, 9767, 9527, 5463, 7378, 5545, 535,
  5918, 1509, 5483, 7344, 8727, 1754, 1317, 3369, 9551, 5960, 2428, 5975, 7277, 5243, 7338, 6473, 368, 8810, 1841, 9116,
  9242, 3420, 622, 563, 9342, 8591, 2102, 3666, 5034, 7354, 4624, 6279, 2625, 462, 5115, 8581, 4996, 9244, 3043, 4551,
  8805, 8964, 4327, 409, 6231, 8340, 5365, 3830, 8899, 5457, 1992, 2219, 6319, 5766, 594, 3082, 5517, 2142, 9914, 3375,
  9793, 7563, 8391, 2524, 1742, 3381, 2019, 7337, 6541, 4249, 9480, 1282, 7251, 1316, 5705, 1365, 3482, 9470, 5005, 8686,
  8002, 1498, 267, 7149, 6181, 1965, 3259, 2278, 5414, 9896, 6977, 2593, 9086, 9020, 5510, 984, 9535, 4301, 7040, 4444,
  2936, 4435, 9452, 5635, 1945, 9532, 4288, 6131, 9598, 2670, 5720, 536, 9665, 7713, 3700, 9904, 4234, 450, 9634, 3782,
  6739, 9199, 6901, 312, 936, 6961, 3900, 4492, 7834, 3056, 6086, 2741, 9011, 4368, 3878, 5980, 7966, 9429, 8217, 5638,
  1052, 9710, 7655, 4964, 6094, 4755, 6081, 1600, 2005, 2389, 9916, 2420, 6806, 8061, 9834, 4437, 9810, 2104, 9395, 577,
  7218, 8557, 6208, 4473, 8740, 4554, 8720, 7385, 9602, 4170, 870, 4631, 8953, 3458, 3692, 3124, 5803, 6513, 7880, 301]

/-- Corpus index sub-list 3 (in increasing truncated-digest order). -/
def c7Idx3 : List Nat := [
  5489, 187, 1794, 4169, 6620, 7292, 1862, 4943, 9628, 4428, 9928, 6749, 6444, 8873, 930, 8174, 8207, 5260, 6770, 6324,
  3842, 4899, 6633, 1512, 1534, 8927, 9701, 8010, 2967, 7552, 364, 5171, 6556, 2130, 2049, 2073, 3305, 6164, 953, 1044,
  7025, 3686, 5738, 3451, 6424, 1309, 8906, 4771, 1529, 461, 2253, 109, 9871, 9259, 856, 1255, 1327, 7104, 128, 9799,
  819, 9970, 5850, 1150, 7523, 1762, 9797, 7701, 41, 1350, 3800, 9611, 8791, 4676, 2871, 7544, 1500, 3131, 451, 3949,
  8232, 5536, 9727, 4890, 7811, 6786, 1878, 8784, 3353, 7392, 990, 194, 8292, 1445, 5495, 948, 8182, 6040, 9587, 614,
  7590, 8123, 4617, 3757, 6617, 1627, 6443, 5196, 4172, 9305, 6694, 9668, 7139, 2677, 7018, 9589, 900, 1503, 7124, 7984,
  6496, 5985, 9274, 3160, 7983, 5621, 3154, 4854, 3404, 3919, 2696, 5538, 9317, 4900, 3768, 2139, 1539, 8711, 910, 6553,
  4131, 2531, 9787, 5207, 3713, 585, 5422, 3283, 8505, 955, 7349, 9073, 6969, 6771, 5361, 7810, 3312, 9771, 397, 7905,
  7695, 8070, 7951, 5037, 943, 4347, 1294, 5486, 6748, 3447, 6808, 8030, 7328, 4726, 9131, 1141, 5933, 1897, 6296, 3390,
  5246, 830, 1480, 4999, 9735, 1427, 5999, 8917, 666, 8818, 8890, 3322, 4491, 6531, 9015, 6757, 5916, 5344, 7267, 6383,
  7569, 4031, 2958, 3443, 3886, 5507, 3817, 472, 6276, 661, 5736, 4129, 6447, 2002, 8205, 6268, 3920, 8596, 4751, 9473,
  6818, 9025, 1854, 2736, 7291, 5476, 4523, 4510, 9791, 380, 8937, 7402, 3403, 3552, 8064, 1426, 3570, 3321, 3671, 5590,
  2800, 6537, 1414, 7838, 3116, 6045, 9026, 6017, 7239, 8977, 1091, 4728, 5734, 2174, 9085, 7853, 3239, 7013, 5409, 5164,
  5812, 4573, 858, 9037, 3707, 6850, 7069, 4753, 5974, 882, 779, 1028, 1280, 9312, 4940, 1182, 4511, 1100, 1412, 5724,
  206, 3260, 731, 7894, 2662, 9757, 3515, 389, 8897, 6139, 6186, 2493, 1942, 5586, 8499, 2363, 2344, 2122, 9349, 3754,
  725, 5408, 6763, 6915, 3228, 7204, 6132, 2809, 4029, 7747, 3722, 9625, 9283, 3379, 6133, 4366, 6743, 8963, 5867, 374,
  4318, 7157, 1938, 9297, 1528, 4489, 6044, 3576, 7878, 680, 305, 4247, 6129, 8180, 4898, 5884, 6696, 120, 4984, 2296,
  2890, 1988, 800, 9704, 9606, 7549, 7856, 5395, 2161, 4387, 6935, 8560, 6906, 4369, 2135, 1149, 4589, 7022, 8864, 167,
  412, 4022, 1467, 447, 1175, 8517, 8951, 8198, 1413, 396, 7112, 8639, 3877, 3857, 4935, 561, 4069, 9836, 9214, 9997,
  7430, 2450, 8339, 7370, 1613, 3715, 5452, 2866, 5235, 2746, 5616, 939, 950, 918, 5747, 7220, 1176, 1111, 6751, 926,
  9368, 6900, 9720, 5473, 9142, 2111, 6031, 6799, 7357, 9334, 2007, 7742, 2511, 5814, 5019, 304, 6349, 242, 5264, 8980,
  6630, 6484, 7095, 2987, 1488, 4165, 8789, 8295, 8408, 6670, 6003, 8728, 15, 1379, 8875, 3474, 862, 261, 3294, 5421,
  4334, 4774, 6829, 4602, 8938, 8195, 7458, 1314, 2972, 5018, 4011, 5995, 7168, 1950, 6429, 7098, 4974, 1680, 9374, 9055,
  9817, 460, 4574, 1922, 2392, 7920, 4321, 4457, 133, 266, 4113, 6309, 6022, 7972, 9130, 2602, 7851, 8032, 1420, 4992,
  459, 9014, 6083, 2149, 7963, 4969, 2790, 2028, 6278, 6839, 3586, 3520, 8121, 9040, 2542, 8045, 2856, 3479, 8313, 9388,
  3572, 621, 549, 1016, 8362, 2138, 413, 7970, 9526, 657, 166, 2255, 7706, 9365, 1029, 5394, 3510, 4211, 1732, 4351,
  4117, 6092, 6591, 540, 8080, 769, 3622, 4952, 8168, 9560, 877, 6206, 1273, 6644, 391, 8081, 3617, 9478, 5158, 2576,
  3676, 4464, 3762, 5109, 269, 8359, 4306, 1063, 9187, 3488, 8974, 1074, 6821, 8341, 5048, 9949, 2744, 7159, 6009, 1980,
  7060, 743, 1006, 3694, 8478, 1172, 9348, 7334, 3991, 7826, 5249, 1390, 7717, 6428, 3903, 7056, 8513, 9863, 141, 8251,
  4738, 8967, 1115, 5340, 7694, 3581, 4016, 4881, 2912, 5475, 7382, 1019, 4533, 1465, 2559, 1025, 6856, 1799, 8876, 9328,
  6218, 6533, 6289, 9726, 4302, 37, 9123, 7374, 178, 6100, 7940, 1215, 7270, 370, 9138, 6549, 4102, 9350, 497, 297,
  8090, 2210, 1356, 299, 3227, 5954, 8164, 5294, 69, 9812, 2218, 2764, 5742, 1692, 3348, 7776, 3017, 7581, 3788, 2482,
  1270, 8238, 3202, 5808, 9662, 5333, 6227, 4568, 705, 9821, 500, 3, 2202, 5000, 4828, 8558, 8243, 4066, 852, 6119,
  4367, 2808, 9753, 2391, 1735, 1442, 1956, 9788, 7066, 293, 7965, 7739, 2830, 3887, 8722, 9693, 4618, 6864, 5070, 2285,
  8483, 9078, 6269, 9460, 7468, 9986, 7768, 8015, 59, 1059, 496, 2431, 3864, 2554, 1899, 2807, 5040, 4132, 6470, 3503,
  2545, 6820, 9822, 4673, 959, 730, 6943, 2806, 229, 874, 3927, 9183, 6032, 4158, 8837, 8539, 2715, 5733, 3456, 6657,
  3099, 2215, 9046, 3434, 5539, 5865, 8169, 8367, 4337, 5162, 7884, 2246, 1086, 5203, 5413, 4564, 4051, 8992, 9172, 1060,
  2960, 1768, 9980, 27, 7582, 9289, 8430, 3302, 2000, 2010, 801, 3061, 8762, 6034, 4562, 4090, 165, 5186, 1385, 8223,
  3881, 1272, 3990, 7997, 2658, 2360, 6485, 9413, 6650, 7052, 4187, 7936, 9017, 4765, 8800, 5291, 1551, 4471, 6986, 5378,
  5410, 814, 6765, 6431, 7929, 7903, 7566, 4995, 5805, 5580, 8744, 3187, 3207, 1588, 2089, 9111, 565, 648, 4055, 8622,
  3971, 5993, 979, 5026, 618, 5717, 3462, 7045, 2025, 4628, 7519, 7140, 5098, 2543, 4450, 7647, 1163, 2544, 1756, 1545,
  5625, 3699, 8913, 2238, 2589, 77, 8583, 6660, 9477, 9360, 7535, 1305, 2911, 8688, 3165, 6545, 9048, 4290, 4958, 2753,
  4252, 9438, 9991, 1866, 532, 3851, 1419, 2244, 9920, 7494, 8659, 3280, 9456, 1072, 3445, 5437, 8900, 4677, 1444, 3122,
  3092, 2395, 4870, 8627, 7387, 5741, 8839, 4283, 9306, 3146, 2435, 333, 3723, 2927, 8865, 7135, 4190, 7580, 4749, 6246,
  237, 1716, 9650, 6149, 7433, 7122, 9761, 9663, 3820, 115, 9, 2770, 3245, 2810, 3038, 8477, 954, 4820, 4658, 6435,
  7653, 2906, 3440, 6655, 8481, 84, 5919, 1976, 9313, 1340, 6311, 5925, 6150, 3668, 1790, 4264, 5546, 9290, 1661, 6408,
  8707, 5479, 6700, 9083, 834, 9742, 388, 7423, 3091, 202, 7361, 8310, 8057, 5238, 3362, 3471, 582, 5269, 2231, 427,
  19, 715, 838, 1658, 3732, 8955, 6972, 625, 9402, 4791, 4463, 7377, 8716, 8105, 2968, 7797, 419, 7304, 7252, 2225,
  7210, 478, 1671, 8919, 1797, 1733, 5981, 7043, 2919, 359, 2059, 8529, 9329, 7597, 7100, 3530, 375, 8650, 8681, 6403,
  151, 5603, 4049, 3744, 9062, 3120, 4988, 2325, 542, 4722, 7409, 8074, 6458, 7073, 5714, 3648, 4490, 4787, 9633, 5655,
  6195, 3373, 454, 3066, 6274, 3905, 4833, 3016, 7969, 4756, 1343, 1845, 9608, 5156, 6035, 8441, 8797, 2567, 6962, 4675,
  2276, 4032, 1568, 163, 683, 8350, 5542, 5633, 986, 5081, 6361, 6747, 604, 6493, 230, 5594, 8493, 9351, 8092, 845,
  9375, 3290, 3596, 7181, 2136, 3248, 7203, 6939, 8072, 2541, 8699, 5532, 2121, 7554, 5674, 7928, 4823, 456, 2492, 5872,
  562, 6072, 6845, 477, 1219, 401, 9870, 8973, 3565, 4666, 87, 9524, 628, 8250, 7478, 7161, 4182, 4659, 1710, 2539,
  8521, 7731, 3981, 6557, 2479, 6731, 2586, 3398, 1827, 7909, 8978, 436, 5438, 2785, 6185, 4295, 9392, 1873, 9262, 7700,
  3858, 3784, 3072, 7010, 2678, 2243, 1550, 138, 1567, 2184, 190, 7814, 6635, 9485, 1518, 5270, 5311, 2442, 8760, 8376,
  9300, 8739, 757, 8948, 9109, 1601, 2656, 1697, 1397, 1274, 9007, 2252, 1232, 726, 9533, 928, 4600, 365, 7788, 9294,
  2818, 4391, 5794, 569, 3677, 2446, 1278, 1800, 9639, 1895, 8289, 12, 4610, 4508, 2169, 2683, 5713, 571, 3669, 3412,
  96, 1823, 8895, 8935, 3325, 4030, 2691, 2487, 9415, 2118, 7992, 1787, 5690, 3204, 8910, 4192, 8104, 5007, 7143, 4805,
  8620, 384, 6480, 1154, 4486, 4552, 3196, 4858, 2020, 2150, 6249, 114, 1959, 802, 4585, 8018, 8511, 353, 4205, 8364,
  6673, 575, 112, 2153, 706, 8611, 6814, 4976, 960, 283, 1761, 7681, 763, 3775, 4598, 5718, 3090, 4037, 9253, 2869,
  8303, 5755, 7024, 3142, 9066, 9938, 1439, 9850, 8528, 7340, 8950, 2159, 4690, 2128, 4579, 773, 274, 3742, 3988, 4639,
  431, 6705, 3889, 1941, 3233, 8742, 5273, 5145, 9051, 1347, 316, 2922, 7322, 9302, 5906, 9943, 6205, 386, 405, 2412,
  6198, 2915, 7147, 836, 4119, 1306, 6025, 1855, 5147, 5553, 2048, 7842, 8559, 8634, 6622, 1222, 7939, 6794, 8761, 8673,
  4373, 5575, 5591, 5332, 5619, 4784, 3955, 9936, 6137, 7078, 7093, 2382, 4453, 6122, 5480, 3883, 7690, 8843, 1796, 3095,
  7500, 546, 5419, 6695, 9685, 1668, 5522, 1764, 8461, 5707, 278, 2133, 403, 3528, 7240, 5533, 4281, 1186, 7667, 5277,
  3824, 1741, 1607, 3430, 3823, 821, 2355, 9472, 5482, 9932, 4959, 8500, 8852, 702, 6203, 6360, 134, 8273, 1079, 4360,
  682, 9149, 6522, 1961, 3773, 5318, 6923, 1454, 4160, 7774, 687, 9281, 4981, 1211, 2652, 4127, 4216, 3975, 7558, 7090,
  3818, 7889, 6008, 6491, 7956, 5204, 629, 9848, 8966, 2422, 2794, 2467, 9107, 3045, 4449, 7279, 6958, 5800, 4733, 7171,
  5666, 7212, 1663, 8091, 3785, 1452, 3764, 3472, 4696, 3176, 4417, 7398, 3675, 2945, 9223, 86, 5725, 2074, 2460, 7543,
  2212, 9567, 9381, 1446, 2054, 3628, 1533, 6659, 2777, 1094, 8445, 8037, 6127, 3137, 3273, 9770, 897, 6048, 5653, 855,
  3050, 3595, 2120, 7103, 4530, 2288, 5285, 6201, 9173, 688, 1335, 3020, 2132, 9864, 5563, 1694, 6789, 7915, 1082, 2082,
  7281, 437, 5518, 7532, 8771, 894, 4177, 2129, 171, 2607, 6581, 9977, 8503, 8007, 6996, 1070, 1177, 985, 2841, 7714,
  6890, 9484, 8298, 8029, 4588, 6476, 479, 156, 2293, 8306, 2031, 9035, 2172, 5008, 7702, 6108, 6584, 2888, 6238, 1460,
  3219, 2443, 3048, 4831, 2621, 9397, 1639, 8985, 5551, 6991, 3496, 6027, 3752, 5823, 5848, 8541, 9004, 6018, 345, 3749,
  6753, 5400, 2638, 6143, 1271, 2618, 5670, 6800, 5512, 6909, 80, 6457, 5900, 6862, 9094, 4174, 7735, 9523, 5075, 4070,
  8972, 338, 8943, 2180, 9910, 5899, 3600, 2109, 6704, 3639, 9979, 6841, 5377, 9201, 8404, 5458, 3930, 942, 2299, 6104,
  9712, 9117, 6050, 6631, 7314, 4951, 9185, 5316, 8218, 4244, 993, 4627, 6508, 590, 1125, 5740, 8526, 7226, 9866, 7672,
  4948, 6895, 1678, 2216, 3624, 721, 9206, 1485, 2226, 3034, 9622, 5227, 6140, 4912, 7205, 4012, 9723, 844, 2671, 7011,
  6561, 7761, 2280, 7598, 6260, 6192, 4466, 7617, 9687, 1161, 8836, 1325, 3578, 7577, 1948, 8925, 8826, 4199, 5864, 786,
  6823, 5001, 6664, 4664, 2418, 1821, 4652, 9448, 292, 9612, 5832, 8162, 1453, 3332, 9093, 2776, 3606, 9607, 2162, 4970,
  4853, 3297, 5516, 2986, 8929, 9168, 2601, 5585, 2463, 4621, 9623, 1840, 2707, 4580, 5462, 3706, 5415, 9271, 9901, 9586,
  2973, 698, 7557, 4730, 1664, 956, 9883, 408, 4945, 6464, 843, 4053, 5487, 3438, 281, 7688, 2472, 3511, 1158, 1666,
  4446, 3630, 5630, 1338, 6793, 2582, 406, 6356, 7372, 6348, 9706, 6381, 2941, 3031, 3446, 8975, 1395, 7559, 2070, 6012,
  4961, 475, 9937, 4396, 5124, 6204, 8726, 5245, 8904, 4897, 1491, 6566, 5343, 4092, 1381, 4282, 6062, 5112, 5405, 7141,
  2021, 1602, 4059, 4689, 6532, 4939, 5313, 6596, 6952, 3691, 8384, 3298, 2563, 8047, 3041, 519, 4183, 2775, 7551, 9882,
  8249, 2175, 6503, 9468, 4215, 9530, 8482, 8277, 5279, 9134, 16, 5215, 6866, 3173, 5929, 2740, 6111, 2324, 7389, 709,
  1495, 7285, 6956, 3731, 24, 9792, 6286, 864, 5782, 7996, 2681, 5307, 8814, 526, 1389, 6920, 2955, 2719, 438, 4331,
  8235, 1869, 3400, 4107, 4731, 5100, 5263, 7055, 9748, 8300, 2620, 1535, 8087, 6396, 6063, 7091, 9153, 23, 5121, 9631,
  9562, 6669, 3805, 2362, 8370, 9500, 5998, 2929, 7626, 5680, 1776, 3776, 3113, 3195, 3161, 6764, 4064, 5470, 566, 6413,
  3651, 3809, 7142, 1675, 5870, 5701, 7034, 2820, 2844, 2622, 767, 271, 7332, 6574, 9377, 7294, 5704, 8049, 656, 9609,
  1624, 62, 7613, 5066, 4409, 3821, 3897, 7088, 1837, 3425, 4971, 3301, 7678, 2672, 1080, 8133, 9341, 3658, 2812, 7550,
  8921, 117, 9136, 8166, 5595, 5054, 1721, 6318, 55, 6894, 7778, 7911, 1121, 4212, 7029, 357, 3499, 2903, 5617, 9654,
  6647, 7242, 6445, 445, 1256, 4144, 7668, 7211, 1040, 1231, 3309, 6905, 6156, 8510, 9412, 6548, 6105, 3085, 7808, 9353,
  1470, 7420, 1142, 4991, 2314, 208, 520, 2168, 3939, 2833, 5788, 5323, 2063, 5342, 3549, 3518, 7644, 5337, 8101, 6589,
  3738, 4752, 9013, 6634, 9398, 1188, 7436, 6406, 3463, 9861, 6586, 6287, 6970, 7127, 4361, 4586, 6836, 207, 5978, 4047,
  2123, 5528, 9604, 4930, 4010, 2755, 923, 8034, 6459, 8848, 1293, 3163, 8853, 8187, 1924, 6680, 1223, 849, 4166, 220,
  2977, 778, 4314, 6364, 7648, 4078, 259, 4893, 1279, 8998, 9188, 2880, 4671, 5896, 2536, 2870, 5298, 4789, 6010, 4695,
  7841, 4883, 6257, 6460, 8287, 9729, 5769, 8446, 2631, 5208, 8291, 8939, 7746, 7293, 8086, 5267, 867, 6921, 100, 9872,
  8777, 7818, 7986, 1763, 6742, 4563, 4907, 1387, 8196, 6306, 7469, 314, 8520, 234, 1194, 1342, 9079, 4750, 2550, 5434]

/-- Corpus index sub-list 4 (in increasing truncated-digest order). -/
def c7Idx4 : List Nat := [
  6575, 2964, 8713, 1731, 5804, 7794, 9946, 8060, 4342, 6350, 3748, 8745, 185, 7461, 2854, 9491, 5796, 2125, 2077, 885,
  7440, 8375, 8274, 966, 509, 2847, 8956, 8516, 5309, 7634, 1336, 6124, 744, 4357, 631, 2578, 7495, 2408, 965, 2881,
  5600, 8640, 6886, 5502, 5427, 8427, 1179, 3728, 4549, 2087, 2916, 3798, 1266, 1318, 3781, 9252, 5499, 3364, 2649, 1777,
  6241, 9362, 8117, 7479, 9497, 8995, 2503, 906, 4111, 6598, 8053, 2236, 2357, 7628, 2565, 8323, 3125, 9534, 957, 7126,
  1590, 6993, 9573, 8872, 5566, 2604, 4370, 1164, 2045, 2268, 9772, 8575, 1667, 7868, 3825, 8118, 8675, 2156, 2914, 5829,
  5971, 9193, 385, 9092, 246, 5182, 7028, 1547, 9032, 5942, 7248, 9303, 6717, 5893, 1977, 6732, 9339, 5404, 9721, 8278,
  4616, 6994, 6255, 8683, 3060, 6737, 7037, 7977, 1002, 9263, 2937, 6077, 7373, 89, 4050, 8077, 9827, 8574, 6448, 5935,
  6729, 6724, 7418, 1466, 1363, 8203, 887, 4223, 1430, 7158, 4162, 3086, 7170, 5376, 9211, 8202, 2332, 8570, 9182, 8470,
  2710, 9380, 7624, 6248, 4420, 2788, 9549, 9617, 8457, 6000, 3690, 8319, 8888, 7165, 7005, 4195, 101, 2040, 866, 495,
  3292, 5869, 896, 2756, 3216, 8882, 4413, 4328, 6187, 556, 3965, 5620, 1820, 8284, 8334, 2192, 1660, 665, 4061, 3541,
  3602, 534, 8512, 5859, 3726, 7077, 9867, 5661, 2416, 3480, 6317, 2335, 4715, 3071, 7790, 8388, 848, 6511, 8962, 4946,
  2011, 4139, 4020, 253, 5700, 4816, 1688, 6316, 6263, 4206, 121, 6538, 6712, 4239, 1360, 8458, 8142, 137, 815, 1138,
  8719, 8657, 7405, 2196, 9714, 2411, 1801, 3849, 6857, 2953, 8400, 1831, 2051, 4293, 1341, 5067, 1999, 6674, 279, 7081,
  3255, 1872, 6024, 2078, 3532, 9053, 4469, 3607, 1737, 572, 9515, 7719, 5428, 6074, 587, 5905, 10, 4590, 5711, 9031,
  458, 5541, 1581, 3945, 1383, 5686, 3794, 6627, 8197, 344, 5101, 8920, 4023, 6138, 4359, 9286, 7059, 2024, 8884, 659,
  8020, 354, 8705, 4068, 490, 8786, 4485, 1310, 6893, 102, 5003, 383, 3589, 759, 1117, 5534, 355, 9902, 3922, 728,
  6407, 8397, 2636, 1554, 8394, 4989, 2605, 686, 4322, 6940, 2579, 5407, 4434, 7750, 3859, 336, 4024, 7643, 4913, 3718,
  2022, 8414, 6463, 8595, 9243, 5570, 6339, 6597, 4310, 7610, 1349, 8527, 762, 7759, 3649, 4273, 1208, 4439, 2498, 1753,
  805, 1114, 1785, 8550, 6995, 8140, 1275, 6115, 9511, 8769, 1793, 6933, 6689, 313, 4604, 8490, 3352, 6178, 4543, 2920,
  6041, 9332, 1896, 2393, 1583, 1894, 30, 2976, 1928, 5562, 6603, 4723, 2067, 4448, 183, 1039, 4815, 6653, 4809, 915,
  9218, 776, 4286, 2560, 2124, 8393, 4932, 2699, 4345, 898, 4403, 6352, 2155, 9110, 7038, 2473, 6607, 2086, 3582, 9843,
  4748, 5756, 8799, 81, 8646, 8343, 6051, 3958, 5746, 5555, 1088, 8855, 8204, 7860, 3149, 1902, 8766, 9208, 1829, 8731,
  9765, 9125, 2714, 7585, 879, 4481, 5524, 8320, 9697, 4027, 4232, 2823, 1773, 4736, 5936, 4560, 7333, 3994, 6842, 1146,
  430, 8509, 3948, 6342, 4384, 1406, 8877, 5077, 3437, 6948, 2465, 6188, 3171, 5771, 4777, 795, 7348, 7556, 6275, 9666,
  1031, 2766, 2012, 2694, 4057, 7680, 1355, 5712, 9320, 3062, 1725, 5004, 4800, 7012, 3608, 2265, 8841, 1061, 3201, 7313,
  6308, 1962, 6254, 7134, 6971, 4204, 593, 1011, 2023, 2038, 4340, 1921, 3257, 7819, 8383, 7298, 4786, 2464, 4813, 5278,
  1971, 2938, 3262, 5914, 131, 6305, 7863, 2106, 5920, 8700, 2206, 5411, 6847, 4638, 164, 1166, 9897, 3367, 1431, 4217,
  9000, 9935, 9783, 2457, 4255, 5240, 2640, 5159, 6706, 1043, 3448, 1758, 5509, 7214, 1574, 7921, 2331, 4335, 1778, 8390,
  8110, 6307, 7895, 5097, 5845, 3052, 544, 9288, 7777, 9021, 5669, 2217, 881, 1148, 3916, 8655, 2273, 4254, 3396, 7635,
  564, 4653, 4116, 1968, 8813, 3465, 3716, 3548, 2436, 9546, 7125, 3159, 9888, 7528, 4542, 2921, 5969, 9960, 9387, 8036,
  6832, 3554, 7800, 7587, 6626, 8132, 6382, 6267, 2669, 6021, 6421, 191, 4451, 6997, 7812, 6475, 3014, 6325, 5191, 5146,
  3057, 7720, 5558, 8538, 7848, 64, 9132, 1884, 7289, 7656, 8833, 5514, 2484, 909, 7247, 8535, 9449, 7235, 4801, 7238,
  280, 3643, 8885, 1329, 905, 2798, 5609, 8215, 6908, 7861, 8415, 2321, 5268, 3224, 1487, 3059, 1036, 73, 7607, 2723,
  3891, 5469, 3848, 7341, 2783, 6816, 1704, 6559, 5569, 4333, 7530, 4861, 3685, 9923, 9331, 1433, 9498, 8621, 4197, 7431,
  7783, 7443, 7151, 6293, 7375, 346, 7807, 5557, 2211, 3888, 6726, 6594, 5082, 8491, 3714, 5917, 9076, 5349, 9695, 4443,
  2782, 9099, 8028, 2745, 7397, 2970, 5611, 7506, 6225, 7003, 6148, 5350, 2260, 5789, 2388, 3682, 3225, 3275, 9540, 8808,
  4538, 4210, 6095, 7274, 7791, 9059, 7346, 7492, 1477, 2995, 7406, 5923, 907, 47, 9222, 442, 1907, 7360, 5629, 3247,
  5065, 2529, 8496, 6202, 8986, 1237, 7092, 9502, 5481, 7839, 3395, 8741, 8181, 8420, 4460, 9006, 3746, 6467, 176, 4925,
  6029, 9023, 5956, 4009, 7401, 816, 7847, 7192, 6374, 6472, 3735, 2191, 2966, 2824, 9968, 7927, 1930, 4401, 6846, 7365,
  350, 8431, 6684, 9001, 2984, 2742, 6536, 2730, 9672, 236, 1933, 227, 2470, 3182, 2112, 1007, 5128, 106, 8773, 225,
  3158, 4869, 4817, 2346, 7266, 5189, 6479, 3046, 1874, 3281, 6716, 2863, 8723, 7042, 5683, 7499, 5952, 5890, 3996, 9766,
  5051, 4547, 3956, 8355, 3063, 7448, 3240, 8317, 1502, 3025, 7156, 5982, 6648, 8709, 9789, 1700, 8916, 11, 5868, 68,
  61, 4717, 9802, 9189, 679, 8896, 1057, 2990, 941, 2795, 620, 8579, 5425, 9215, 1187, 4555, 8562, 1478, 3573, 6803,
  9145, 3912, 3419, 1629, 3982, 8954, 516, 2004, 655, 4354, 643, 4441, 9805, 2615, 4708, 2481, 4002, 1264, 139, 4540,
  951, 6610, 9955, 6671, 1548, 1296, 4138, 3636, 420, 738, 825, 60, 8687, 7079, 26, 9929, 5729, 5847, 6539, 8811,
  2997, 2039, 1244, 9647, 3498, 4706, 8305, 6488, 4725, 4917, 8871, 1180, 1631, 4021, 1344, 1628, 9522, 6783, 2814, 2635,
  3269, 7906, 7967, 2627, 8624, 485, 4035, 7845, 5500, 378, 1473, 3491, 6294, 5612, 3568, 7758, 5924, 4716, 4355, 8660,
  2513, 5315, 1973, 4432, 7290, 8893, 9352, 2706, 9323, 9707, 7309, 6230, 1353, 2700, 9918, 390, 4406, 7555, 875, 5679,
  2732, 3962, 6106, 8076, 5360, 317, 5391, 2773, 3019, 5979, 1471, 7224, 2932, 3347, 1169, 2801, 7273, 2647, 57, 9635,
  5970, 6577, 4825, 735, 5606, 1682, 4317, 1645, 1647, 4595, 760, 6392, 4319, 4265, 4194, 2624, 1396, 9044, 6261, 8279,
  8506, 9629, 3264, 1432, 2568, 1749, 3251, 6310, 6056, 4171, 8969, 4804, 1448, 8983, 913, 8725, 6173, 5949, 935, 2575,
  1250, 3386, 3704, 9564, 5384, 9045, 6615, 3470, 714, 8244, 8783, 5200, 8733, 8868, 3729, 4859, 9613, 5016, 9236, 1486,
  8209, 2050, 995, 5192, 7427, 6510, 1246, 2562, 4260, 8046, 9868, 1720, 2951, 9033, 3003, 1727, 9950, 7840, 5761, 4544,
  3102, 6913, 3129, 6500, 758, 233, 381, 9981, 5073, 4665, 9686, 3483, 9858, 8546, 1400, 3497, 9709, 8708, 6215, 9135,
  8413, 1334, 5640, 7136, 922, 2540, 3220, 189, 5190, 9216, 8625, 938, 5467, 4633, 9962, 6543, 2530, 7661, 6628, 6264,
  3616, 9376, 4993, 749, 4429, 5206, 1459, 6288, 893, 425, 3119, 5743, 5198, 2316, 394, 6285, 9725, 8932, 3237, 8706,
  1221, 4213, 8288, 6735, 9525, 4176, 5085, 7391, 2480, 4888, 1403, 2486, 963, 7898, 2717, 8001, 9768, 3331, 5660, 531,
  5444, 8545, 2887, 8056, 3928, 6588, 1204, 7120, 649, 7659, 1757, 1005, 1674, 9176, 7138, 820, 2598, 8828, 2875, 2999,
  8131, 6468, 7307, 605, 1384, 2401, 2535, 7323, 2414, 5152, 8902, 6494, 4641, 6160, 9846, 2042, 9716, 4571, 5525, 6329,
  4133, 6784, 8459, 3231, 5460, 2199, 3029, 4056, 8988, 6091, 7096, 1364, 7553, 1784, 6928, 7113, 5856, 8487, 5623, 7711,
  1889, 8651, 1586, 8268, 7918, 432, 2862, 6535, 4906, 4844, 6456, 8930, 7447, 6336, 9778, 3337, 2843, 3867, 4393, 2904,
  4835, 3155, 1331, 127, 4145, 4201, 1008, 9233, 840, 3926, 2423, 2140, 2729, 1145, 9069, 8497, 2207, 6351, 1065, 8186,
  5250, 8442, 9680, 179, 4455, 647, 2716, 9513, 7852, 6774, 5889, 6506, 289, 9640, 8447, 1064, 1599, 1728, 9750, 974,
  8216, 4278, 2813, 9382, 1035, 7578, 7793, 6239, 7432, 7784, 78, 7085, 8418, 5053, 6387, 3093, 6250, 2189, 3023, 3493,
  550, 895, 8901, 752, 4285, 6440, 9178, 193, 8237, 6811, 7619, 4694, 5272, 3999, 6602, 5430, 1313, 8721, 9496, 9319,
  2160, 6199, 2491, 6011, 1901, 52, 7673, 1904, 3359, 2667, 8606, 6116, 9679, 6209, 6404, 2394, 538, 8342, 7946, 9343,
  7407, 9264, 9844, 8861, 3405, 6688, 8426, 8211, 4339, 8130, 3657, 4250, 8602, 1160, 2163, 6216, 8428, 3539, 2804, 4924,
  9924, 4193, 3633, 5948, 5561, 6827, 3230, 6718, 7319, 8838, 3156, 8299, 4990, 5286, 7828, 6638, 1134, 108, 5280, 5389,
  6179, 8941, 5844, 5397, 2009, 8210, 8993, 8206, 9570, 2826, 9833, 9097, 8666, 5255, 5493, 4154, 1848, 9396, 5939, 38,
  1739, 9593, 2797, 6067, 6872, 5388, 5821, 6330, 8040, 5322, 6399, 1712, 1570, 7241, 4868, 2761, 7184, 9366, 2397, 3778,
  9841, 9030, 3921, 9909, 5127, 634, 8785, 4167, 1078, 6968, 4867, 3234, 5722, 6497, 2298, 9003, 1472, 2100, 443, 3346,
  4289, 3992, 2369, 2348, 5601, 3431, 9036, 3466, 7957, 9230, 847, 7256, 4007, 2751, 7785, 2735, 9164, 3884, 2590, 1615,
  8879, 3073, 5684, 2143, 5634, 7465, 1672, 8486, 4499, 326, 3969, 1908, 5937, 8692, 7030, 9615, 8312, 300, 3079, 2471,
  7766, 3514, 6651, 6947, 7180, 8346, 457, 9260, 8749, 8293, 8119, 143, 3426, 3435, 4188, 9790, 3455, 3313, 1104, 3064,
  2279, 8724, 7779, 2934, 7633, 204, 132, 9118, 9550, 5706, 1464, 7526, 3635, 623, 9042, 732, 4790, 7522, 6964, 7169,
  969, 8851, 6232, 2623, 1490, 2894, 7574, 5888, 9029, 2304, 5697, 2339, 9251, 7160, 3590, 6410, 7636, 8630, 3150, 4926,
  8213, 5721, 6992, 9462, 4792, 1819, 2551, 8051, 925, 6180, 5368, 6064, 9269, 5501, 1515, 3055, 5064, 7864, 4929, 5749,
  8247, 7567, 5074, 8635, 6606, 4349, 6141, 5698, 1983, 4006, 4237, 606, 9363, 1575, 1669, 9724, 7414, 3561, 784, 5819,
  2516, 1949, 6916, 7536, 2654, 9275, 5615, 4712, 7948, 5446, 382, 645, 7152, 5723, 2167, 7480, 387, 7051, 5857, 8668,
  1377, 1834, 2438, 9671, 2572, 1181, 4487, 3246, 4681, 8608, 789, 7724, 9762, 172, 8122, 981, 6587, 9090, 560, 9876,
  9219, 7339, 6963, 2483, 7534, 919, 7780, 1887, 9809, 9884, 9307, 219, 116, 878, 1312, 8641, 7335, 318, 9754, 7053,
  5897, 798, 4279, 8832, 3380, 4668, 4763, 5574, 4155, 4120, 3826, 9435, 8670, 9660, 3977, 6337, 488, 1584, 5153, 2913,
  2817, 1517, 7299, 199, 180, 4942, 6166, 5352, 1357, 1981, 627, 4663, 1484, 9958, 1085, 4019, 8788, 5453, 264, 2902,
  5292, 3512, 8027, 7512, 1853, 1405, 3601, 6542, 9815, 6054, 3577, 5663, 6134, 5454, 7916, 4767, 4572, 1654, 972, 9831,
  8569, 9010, 504, 2758, 1886, 7901, 8451, 6927, 5776, 5103, 6151, 4920, 707, 3010, 3328, 111, 7236, 3789, 8178, 8807,
  9563, 7855, 8382, 2093, 5577, 3531, 5946, 3730, 1428, 1632, 9157, 9657, 4043, 3334, 7233, 2084, 1018, 1151, 3372, 3861,
  8161, 7979, 284, 6874, 8167, 3615, 1097, 7722, 7858, 9441, 9212, 1802, 1098, 8124, 7460, 4175, 6950, 7306, 9408, 7176,
  8753, 2266, 3791, 8120, 1199, 6773, 3423, 6677, 8633, 3659, 4269, 2291, 124, 4797, 8831, 9548, 6663, 3024, 2272, 3077,
  3100, 9886, 7665, 6015, 1193, 4567, 8042, 3256, 3345, 5439, 5605, 5042, 6613, 9399, 8915, 5308, 1425, 792, 6959, 9976,
  4762, 320, 2090, 4316, 4412, 785, 5535, 9150, 9501, 3194, 1690, 5471, 9465, 1868, 5827, 4299, 8171, 1996, 9913, 4180,
  7676, 8222, 3804, 9481, 5953, 783, 335, 5478, 5134, 5346, 2644, 3779, 5185, 4156, 5432, 6699, 1499, 6938, 8189, 8945,
  36, 7296, 5324, 8311, 4732, 832, 8618, 2496, 3054, 7002, 6719, 8846, 3587, 452, 9891, 392, 6585, 633, 9295, 6685,
  9610, 5548, 1527, 1772, 7302, 1352, 8374, 8054, 2828, 1860, 1593, 9796, 693, 1709, 810, 9039, 169, 2527, 322, 7886,
  7765, 9740, 9298, 7404, 5627, 8849, 7823, 6817, 2571, 1608, 7809, 8012, 5331, 1113, 6515, 7259, 8815, 8795, 3001, 8824,
  8755, 1415, 7960, 8870, 4908, 5748, 309, 3214, 8432, 1555, 4105, 4181, 4724, 3563, 361, 1410, 6405, 8075, 170, 8587,
  6380, 4606, 1252, 6883, 414, 9390, 7938, 3452, 6376, 3571, 5750, 6161, 3416, 1083, 8903, 6876, 1986, 8173, 1609, 3254,
  1516, 341, 7825, 8746, 6425, 1830, 1404, 3349, 6888, 4461, 7435, 703, 1952, 6327, 4928, 3308, 9627, 7964, 5703, 7698,
  7640, 1718, 3840, 5552, 369, 8228, 5910, 9541, 424, 6290, 3605, 9309, 1946, 7329, 3882, 8304, 4535, 8423, 9967, 4644,
  9148, 285, 7356, 4524, 1817, 3476, 5877, 9736, 2877, 5183, 3487, 6191, 2147, 2821, 9601, 7015, 6453, 4506, 7202, 2075,
  6114, 7475, 3282, 7399, 8536, 8671, 9637, 5345, 2326, 8392, 5317, 1087, 4118, 5496, 5852, 5429, 8360, 9996, 6999, 975]


/-- All ten thousand corpus indices. -/
def c7Idx : List Nat := c7Idx0 ++ (c7Idx1 ++ (c7Idx2 ++ (c7Idx3 ++ c7Idx4)))

/-- The synthetic path corpus. -/
def c7Corpus : List String := c7Idx.map c7Path

/-! ## Spec-side wordings and concrete inputs used by the claims -/

/-- The directory-name algorithm exactly as §4.4 words it: start with `dut`
then (if both present) a `__` separator then `tb`; if generics are non-empty
or a seed is set, append `_` followed by, for each generic in insertion
order, `_key=value`, followed by `_seed=<seed>` if a seed is set. -/
def specDirname (m : TestModule) : String :=
  let base :=
    match m.dut, m.tb with
    | some d, some t => d ++ "__" ++ t
    | some d, none => d
    | none, some t => t
    | none, none => ""
  if m.generics ≠ [] ∨ m.seed.isSome then
    base ++ "_"
      ++ String.join (m.generics.map (fun kv => "_" ++ kv.1 ++ "=" ++ sanitize_value kv.2))
      ++ (match m.seed with
          | some s => "_seed=" ++ toString s
          | none => "")
  else base

/-- The §8 example table: one row, dut `top`, tb `top_tb`, two trials. -/
def c1Table : List TestRow :=
  [⟨some "top", some "top_tb", [⟨[("WIDTH", "8")], some 42⟩, ⟨[], none⟩]⟩]

/-- A concrete builtin entry (tag normalizes to `VHDL`). -/
def c2Entry : Entry := Entry.init "vhdl" "work" "a.vhd" []

/-- The build file `prepare_compilation` produces for the single entry. -/
def c2Nj : Ninja := { msimInitNinja "out/compile.log" with edges := [specEdge c2Entry] }

/-- An out-of-order blueprint: the first entry depends on `a.vhd`, whose own
entry appears only later, so no earlier edge outputs its target. -/
def c3Entries : List Entry :=
  [Entry.init "vhdl" "work" "b.vhd" ["a.vhd"], Entry.init "vhdl" "work" "a.vhd" []]

/-- A concrete explicit override module (`dut="x"`). -/
def c4Module : TestModule := ⟨some "x", none, [], none⟩

/-- A non-empty declarative table to be short-circuited. -/
def c4Table : List TestRow :=
  [⟨some "alpha", some "alpha_tb", [⟨[("N", "4")], some 7⟩]⟩,
   ⟨some "beta", none, []⟩]

/-- Non-empty blueprint content offered to the loader. -/
def c8Content : BpContent := ⟨[("vhdl", "work", "a.vhd")], []⟩

/-! # Helper lemmas -/

theorem forceNat_eq {α : Sort u} (n : Nat) (k : Nat → α) : forceNat n k = k n := by
  cases n <;> rfl

theorem char_eq_iff (a b : Char) : a = b ↔ a.toNat = b.toNat :=
  ⟨congrArg Char.toNat, fun h => Char.ext (UInt32.ext h)⟩

theorem char_le_iff (a b : Char) : a ≤ b ↔ a.toNat ≤ b.toNat := by
  rw [Char.le_def]; exact ge_iff_le

theorem toNat_ofNat_small (n : Nat) (h : n < 55296) : (Char.ofNat n).toNat = n := by
  unfold Char.ofNat
  split
  · rfl
  · rename_i h3
    exfalso
    apply h3
    constructor
    omega

/-- The normalization chain leaves its own output fixed, character by
character. -/
theorem normChar_idem (c : Char) :
    pyReplaceChar '_' '-' (pyReplaceChar ' ' '-' (pyUpperChar
      (pyReplaceChar '_' '-' (pyReplaceChar ' ' '-' (pyUpperChar c)))))
    = pyReplaceChar '_' '-' (pyReplaceChar ' ' '-' (pyUpperChar c)) := by
  by_cases hl : 'a' ≤ c ∧ c ≤ 'z'
  · have h97 : 97 ≤ c.toNat := (char_le_iff 'a' c).mp hl.1
    have h122 : c.toNat ≤ 122 := (char_le_iff c 'z').mp hl.2
    have hup : pyUpperChar c = Char.ofNat (c.toNat - 32) := by
      simp [pyUpperChar, hl]
    have hun : (Char.ofNat (c.toNat - 32)).toNat = c.toNat - 32 :=
      toNat_ofNat_small _ (by omega)
    have hsp : ¬(Char.ofNat (c.toNat - 32) = ' ') := by
      rw [char_eq_iff, hun]
      have h32 : (' ' : Char).toNat = 32 := rfl
      omega
    have hus : ¬(Char.ofNat (c.toNat - 32) = '_') := by
      rw [char_eq_iff, hun]
      have h95 : ('_' : Char).toNat = 95 := rfl
      omega
    have hlo : ¬('a' ≤ Char.ofNat (c.toNat - 32) ∧ Char.ofNat (c.toNat - 32) ≤ 'z') := by
      rw [char_le_iff, char_le_iff, hun]
      have ha : ('a' : Char).toNat = 97 := rfl
      have hz : ('z' : Char).toNat = 122 := rfl
      omega
    rw [hup]
    simp [pyReplaceChar, hsp, hus, pyUpperChar, hlo]
  · have hup : pyUpperChar c = c := by simp [pyUpperChar, hl]
    rw [hup]
    by_cases hsp : c = ' '
    · subst hsp
      decide
    · by_cases hus : c = '_'
      · subst hus
        decide
      · simp [pyReplaceChar, hsp, hus, pyUpperChar, hl]

/-- List-level idempotence of the normalization chain. -/
theorem normData_idem (l : List Char) :
    (((((l.map pyUpperChar).map (pyReplaceChar ' ' '-')).map (pyReplaceChar '_' '-')).map
      pyUpperChar).map (pyReplaceChar ' ' '-')).map (pyReplaceChar '_' '-')
    = ((l.map pyUpperChar).map (pyReplaceChar ' ' '-')).map (pyReplaceChar '_' '-') := by
  induction l with
  | nil => rfl
  | cons c cs ih =>
    simp only [List.map_cons]
    exact congrArg₂ List.cons (normChar_idem c) ih

/-! # Claim theorems (first group) -/

/-- C9: fileset normalization (uppercase the tag, replace every space and
underscore with a hyphen, applied on Source Entry construction) is
idempotent: `normalize (normalize x) = normalize x` for every string. -/
theorem C9_normalize_idempotent (s : String) :
    normalize_fset (normalize_fset s) = normalize_fset s :=
  congrArg String.mk (normData_idem s.data)

/-- C10: whenever the executable is found and launches, `Command.output`
returns `OKAY` with the captured combined text regardless of the child's
exit code, because stderr is merged into stdout and the `err` branch is
unreachable; a `FAIL` is returned only when the executable is missing, and
then with empty text. -/
theorem C10_command_output :
    (∀ (out : String) (code : Int), Command.output (.launched out code) = (out, .OKAY)) ∧
    Command.output .notFound = ("", .FAIL) :=
  ⟨fun _ _ => rfl, rfl⟩

/-- C8 (amended): a missing listing file makes loading fail (with Python's
uncaught `FileNotFoundError`, not a reported configuration error), but an
unrecognized plan tag makes loading succeed with an empty entry list; the
fatal rejection of such plans happens later, in the backend drivers. -/
theorem C8_blueprint_load (plan : String) (content : BpContent)
    (h1 : plan ≠ "tsv") (h2 : plan ≠ "json") :
    blueprint_load plan (some content) = .ok [] ∧
    blueprint_load plan none = .error .fileNotFound := by
  refine ⟨?_, rfl⟩
  have e1 : (plan == "tsv") = false := beq_eq_false_iff_ne.mpr h1
  have e2 : (plan == "json") = false := beq_eq_false_iff_ne.mpr h2
  simp [blueprint_load, e1, e2]

/-- Witness for C8 at plan `yaml` with non-empty content. -/
theorem C8_blueprint_load_witness :
    blueprint_load "yaml" (some c8Content) = .ok [] ∧
    blueprint_load "yaml" none = .error .fileNotFound :=
  C8_blueprint_load "yaml" c8Content (by decide) (by decide)

/-- C8 counterexample: with non-empty content and the unrecognized plan tag
`yaml`, loading succeeds with an empty entry list instead of failing. -/
theorem C8_blueprint_load_counterexample :
    blueprint_load "yaml" (some c8Content) = .ok [] ∧ c8Content.tsvRows.length = 1 :=
  ⟨rfl, rfl⟩

/-- C4: a valid explicit override module replaces the entire expanded table:
the resulting module sequence is exactly `[override]`. -/
theorem C4_override_short_circuit (table : List TestRow) (d : TestModule)
    (h : d.is_valid = true) :
    runnerModules table (some d) = [d] := by
  unfold runnerModules
  simp [h]

/-- Witness for C4: a non-empty two-row table plus the override `dut="x"`. -/
theorem C4_override_short_circuit_witness :
    c4Module.is_valid = true ∧ runnerModules c4Table (some c4Module) = [c4Module] :=
  ⟨rfl, C4_override_short_circuit c4Table c4Module rfl⟩

/-- The row loop of `TestRunner.__init__`, run from any accumulator. -/
theorem runner_foldl_eq (table : List TestRow) (acc : List TestModule) :
    table.foldl
      (fun acc r =>
        (acc ++ (if r.trials.length = 0 then [⟨r.dut, r.tb, [], none⟩] else []))
          ++ r.trials.map (fun t => ⟨r.dut, r.tb, t.generics, t.seed⟩))
      acc
    = acc ++ table.flatMap specExpandRow := by
  induction table generalizing acc with
  | nil => simp
  | cons r rest ih =>
    rw [List.foldl_cons, ih, List.flatMap_cons]
    cases hr : r.trials with
    | nil => simp [specExpandRow, hr]
    | cons t ts => simp [specExpandRow, hr]

/-- C5: with no override, matrix expansion turns each row with an empty trial
list into exactly one bare module and each trial into one module inheriting
the row's dut/tb, in table order. -/
theorem C5_matrix_expansion (table : List TestRow) :
    runnerModules table none = table.flatMap specExpandRow := by
  unfold runnerModules
  exact runner_foldl_eq table []

/-- The pass counter accumulates `count true`, the trial counter is left
untouched. -/
theorem runTrials_eq (results : List Bool) :
    ∀ n p, results.foldl disp_trial_result ⟨n, p⟩ = ⟨n, p + results.count true⟩ := by
  induction results with
  | nil =>
    intro n p
    simp
  | cons b bs ih =>
    intro n p
    cases b
    · rw [List.foldl_cons]
      show bs.foldl disp_trial_result ⟨n, p⟩ = _
      rw [ih, List.count_cons]
      simp
    · rw [List.foldl_cons]
      show bs.foldl disp_trial_result ⟨n, p + 1⟩ = _
      rw [ih, List.count_cons]
      simp
      omega

/-- C6: for n trials with p passes the summary reports total n, passed p,
failed n - p; the overall verdict is ok iff p = n; the process exit status is
101 exactly when some trial failed, 0 otherwise; in particular five trials
with three passes yield (5, 3, 2) and exit 101. -/
theorem C6_run_summary (results : List Bool) :
    (runTrials results).num_trials = results.length ∧
    (runTrials results).num_passed = results.count true ∧
    (runTrials results).num_failed = results.length - results.count true ∧
    (disp_result_all_ok (runTrials results) = true ↔ results.count true = results.length) ∧
    ghdl_main_exit (disp_result_all_ok (runTrials results))
      = (if false ∈ results then 101 else 0) ∧
    runTrials [true, true, false, true, false] = ⟨5, 3⟩ ∧
    (runTrials [true, true, false, true, false]).num_failed = 2 ∧
    ghdl_main_exit (disp_result_all_ok (runTrials [true, true, false, true, false])) = 101 := by
  have hrun : runTrials results = ⟨results.length, results.count true⟩ := by
    unfold runTrials
    rw [runTrials_eq]
    simp
  refine ⟨?_, ?_, ?_, ?_, ?_, by decide, by decide, by decide⟩
  · rw [hrun]
  · rw [hrun]
  · rw [hrun]; rfl
  · rw [hrun]
    unfold disp_result_all_ok
    exact beq_iff_eq
  · rw [hrun]
    unfold disp_result_all_ok ghdl_main_exit
    by_cases hf : false ∈ results
    · have hc : results.count true ≠ results.length := by
        intro he
        have := List.count_eq_length.mp he false hf
        exact Bool.noConfusion this
      have : (results.count true == results.length) = false := by
        simp [hc]
      rw [this]
      simp [hf]
    · have hc : results.count true = results.length := by
        apply List.count_eq_length.mpr
        intro b hb
        cases b
        · exact absurd hb hf
        · rfl
      rw [hc]
      simp [hf]

/-! # C1: directory names -/

theorem foldl_append_str (l : List String) (s : String) :
    l.foldl (· ++ ·) s = s ++ l.foldl (· ++ ·) "" := by
  induction l generalizing s with
  | nil => simp
  | cons x xs ih =>
    rw [List.foldl_cons, List.foldl_cons, ih (s ++ x), ih ("" ++ x)]
    simp [String.append_assoc]

theorem string_join_cons (s : String) (l : List String) :
    String.join (s :: l) = s ++ String.join l := by
  simp only [String.join, List.foldl_cons]
  exact foldl_append_str l ("" ++ s) |>.trans (by simp)

theorem gens_foldl_eq (l : List (String × String)) (acc : String) :
    l.foldl (fun acc kv => acc ++ "_" ++ kv.1 ++ "=" ++ sanitize_value kv.2) acc
    = acc ++ String.join (l.map fun kv => "_" ++ kv.1 ++ "=" ++ sanitize_value kv.2) := by
  induction l generalizing acc with
  | nil => simp [String.join]
  | cons kv rest ih =>
    rw [List.foldl_cons, ih, List.map_cons, string_join_cons]
    simp [String.append_assoc]

theorem gens_len_mono (l : List (String × String)) (acc : String) :
    acc.length ≤ (l.foldl (fun acc kv => acc ++ "_" ++ kv.1 ++ "=" ++ sanitize_value kv.2) acc).length := by
  induction l generalizing acc with
  | nil => exact Nat.le_refl _
  | cons kv rest ih =>
    rw [List.foldl_cons]
    refine Nat.le_trans ?_ (ih _)
    simp [String.length_append]
    omega

theorem seed_str_pos_iff (m : TestModule) :
    0 < m.seed_str.length ↔ m.seed.isSome = true := by
  cases hs : m.seed with
  | none => simp [TestModule.seed_str, hs]
  | some s =>
    simp [TestModule.seed_str, hs, String.length_append]
    exact Or.inl (by decide)

theorem gens_str_pos_iff (m : TestModule) :
    0 < m.gens_str.length ↔ m.generics ≠ [] := by
  cases hg : m.generics with
  | nil => simp [TestModule.gens_str, hg]
  | cons kv rest =>
    simp only [ne_eq, reduceCtorEq, not_false_eq_true, iff_true]
    unfold TestModule.gens_str
    rw [hg, List.foldl_cons]
    refine Nat.lt_of_lt_of_le ?_ (gens_len_mono rest _)
    simp [String.length_append]
    exact Or.inl (Or.inl (Or.inl (by decide)))

/-- The spec-worded directory name coincides with the code's. -/
theorem specDirname_eq (m : TestModule) : specDirname m = m.get_dirname := by
  have hcond : (m.generics ≠ [] ∨ m.seed.isSome = true)
      ↔ (m.seed_str.length > 0 ∨ m.gens_str.length > 0) :=
    (or_congr (gens_str_pos_iff m).symm (seed_str_pos_iff m).symm).trans or_comm
  have hg : String.join (m.generics.map fun kv => "_" ++ kv.1 ++ "=" ++ sanitize_value kv.2)
      = m.gens_str := by
    unfold TestModule.gens_str
    rw [gens_foldl_eq]
    simp
  have hs : (match m.seed with
      | some s => "_seed=" ++ toString s
      | none => "") = m.seed_str := by
    unfold TestModule.seed_str
    cases m.seed <;> rfl
  unfold specDirname TestModule.get_dirname
  rw [hg, hs, if_congr hcond rfl rfl]

/-- C1 (amended): the per-module directory name follows the §4.4 algorithm,
and the §8 example table expands to directory names
`top__top_tb__WIDTH=8_seed=42` (double underscore before the first generic,
since the `_` join is appended on top of the `_key=value` fragments) and
`top__top_tb`. -/
theorem C1_dirname :
    (∀ m : TestModule, specDirname m = m.get_dirname) ∧
    (runnerModules c1Table none).map TestModule.get_dirname
      = ["top__top_tb__WIDTH=8_seed=42", "top__top_tb"] :=
  ⟨specDirname_eq, by decide⟩

/-- C1 counterexample: the claimed expansion names (single underscore before
`WIDTH`) do not match what the code produces on the §8 example table. -/
theorem C1_dirname_counterexample :
    (runnerModules c1Table none).map TestModule.get_dirname
      ≠ ["top__top_tb_WIDTH=8_seed=42", "top__top_tb"] := by
  decide

/-! # C2/C3: the build-graph compiler -/

/-- What a successful run of the entry loop appends, and how the working
library set is characterized, from any starting state. -/
theorem prepGo_ok_spec (es : List Entry) (nj : Ninja) (libs : List (String × String))
    (nj' : Ninja) (libs' : List (String × String))
    (h : prepGo es nj libs = .ok (nj', libs')) :
    nj'.edges = nj.edges ++ (es.filter Entry.is_builtin).map specEdge ∧
    (∀ pr : String × String,
      pr ∈ libs' ↔ pr ∈ libs ∨ ∃ e ∈ es, e.is_builtin = true ∧ pr = (e.lib, e.lib)) := by
  induction es generalizing nj libs with
  | nil =>
    unfold prepGo at h
    cases h
    simp
  | cons e rest ih =>
    unfold prepGo at h
    by_cases hb : e.is_builtin = true
    · simp only [hb, if_true] at h
      unfold Ninja.add_build at h
      by_cases hchk : (e.deps.map gen_out_file_name).all
          (fun d => (nj.edges.flatMap NinjaEdge.outputs).contains d) = true
      · simp only [hchk, if_true] at h
        obtain ⟨ihe, ihl⟩ := ih _ _ h
        constructor
        · rw [ihe]
          simp [List.filter_cons, hb, specEdge]
        · intro pr
          rw [ihl pr]
          have hsplit : pr ∈ (if libs.contains (e.lib, e.lib) then libs
              else libs ++ [(e.lib, e.lib)]) ↔ pr ∈ libs ∨ pr = (e.lib, e.lib) := by
            by_cases hcon : libs.contains (e.lib, e.lib) = true
            · simp only [hcon, if_true]
              constructor
              · exact fun hm => Or.inl hm
              · rintro (hm | hm)
                · exact hm
                · rw [hm]
                  exact List.mem_of_elem_eq_true hcon
            · simp only [hcon, if_false]
              simp [List.mem_append]
          rw [hsplit]
          simp [hb]
          tauto
      · simp only [hchk, if_false] at h
        exact absurd h (by simp)
    · simp only [hb, if_false] at h
      obtain ⟨ihe, ihl⟩ := ih _ _ h
      constructor
      · rw [ihe]
        simp [List.filter_cons, hb]
      · intro pr
        rw [ihl pr]
        have : ∀ x ∈ [e], ¬(x.is_builtin = true ∧ pr = (x.lib, x.lib)) := by
          intro x hx
          simp at hx
          subst hx
          simp [hb]
        simp [hb]

/-- C2 (amended): a successful build-graph construction emits one edge per
builtin entry, in blueprint order, with rule the lowercased normalized
fileset tag (the source lowercases `entry.fset`; the claim instead said the
normalized tag itself), outputs the entry's single target identity, inputs
the entry's path, implicit deps the targets of its dependency paths, and a
`lib` binding carrying the entry's library; the accumulated working library
set is exactly the `(library, library)` pairs of the builtin entries. -/
theorem C2_build_graph (entries : List Entry) (cmp_log : String)
    (nj : Ninja) (libs : List (String × String))
    (h : prepare_compilation cmp_log entries = .ok (nj, libs)) :
    nj.edges = (entries.filter Entry.is_builtin).map specEdge ∧
    (∀ pr : String × String,
      pr ∈ libs ↔ ∃ e ∈ entries, e.is_builtin = true ∧ pr = (e.lib, e.lib)) := by
  obtain ⟨he, hl⟩ := prepGo_ok_spec entries (msimInitNinja cmp_log) [] nj libs h
  constructor
  · rw [he]
    rfl
  · intro pr
    rw [hl pr]
    simp

/-- Witness for C2 on a one-entry blueprint. -/
theorem C2_build_graph_witness :
    prepare_compilation "out/compile.log" [c2Entry] = .ok (c2Nj, [("work", "work")]) ∧
    c2Nj.edges = ([c2Entry].filter Entry.is_builtin).map specEdge ∧
    (("work", "work") ∈ [(("work" : String), ("work" : String))] ↔
      ∃ e ∈ [c2Entry], e.is_builtin = true ∧ (("work" : String), ("work" : String)) = (e.lib, e.lib)) := by
  have h : prepare_compilation "out/compile.log" [c2Entry] = .ok (c2Nj, [("work", "work")]) := rfl
  exact ⟨h, (C2_build_graph [c2Entry] "out/compile.log" c2Nj [("work", "work")] h).1,
    (C2_build_graph [c2Entry] "out/compile.log" c2Nj [("work", "work")] h).2 ("work", "work")⟩

/-- C2 counterexample: the emitted edge's rule is the lowercased tag `vhdl`,
not the entry's normalized fileset tag `VHDL` as the claim states. -/
theorem C2_build_graph_counterexample :
    prepare_compilation "out/compile.log" [c2Entry] = .ok (c2Nj, [("work", "work")]) ∧
    c2Nj.edges.map NinjaEdge.rule = ["vhdl"] ∧
    c2Entry.fset = "VHDL" ∧
    ∀ ed ∈ c2Nj.edges, ed.rule ≠ c2Entry.fset := by
  refine ⟨rfl, rfl, rfl, ?_⟩
  intro ed hed
  simp [c2Nj, msimInitNinja] at hed
  rw [hed]
  decide

/-- A successful run keeps every builtin entry's dependency targets inside
the previously-emitted outputs or the run's own target list. -/
theorem prepGo_ok_deps (es : List Entry) (nj : Ninja) (libs : List (String × String))
    (nj' : Ninja) (libs' : List (String × String))
    (h : prepGo es nj libs = .ok (nj', libs')) :
    ∀ e ∈ es, e.is_builtin = true → ∀ d ∈ e.deps,
      gen_out_file_name d ∈ nj.edges.flatMap NinjaEdge.outputs ∨
      gen_out_file_name d ∈ (es.filter Entry.is_builtin).map (fun x => gen_out_file_name x.path) := by
  induction es generalizing nj libs with
  | nil =>
    intro e he
    exact absurd he (List.not_mem_nil e)
  | cons e0 rest ih =>
    intro e he hb d hd
    unfold prepGo at h
    by_cases hb0 : e0.is_builtin = true
    · simp only [hb0, if_true] at h
      unfold Ninja.add_build at h
      by_cases hchk : (e0.deps.map gen_out_file_name).all
          (fun x => (nj.edges.flatMap NinjaEdge.outputs).contains x) = true
      · simp only [hchk, if_true] at h
        rcases List.mem_cons.mp he with he0 | herest
        · subst he0
          left
          have hmem : gen_out_file_name d ∈ e.deps.map gen_out_file_name :=
            List.mem_map_of_mem _ hd
          have := (List.all_eq_true.mp hchk) _ hmem
          exact List.mem_of_elem_eq_true this
        · have := ih _ _ h e herest hb d hd
          rcases this with hout | htgt
          · rw [List.flatMap_append] at hout
            rcases List.mem_append.mp hout with h1 | h2
            · exact Or.inl h1
            · right
              simp only [List.flatMap_cons, List.flatMap_nil] at h2
              simp at h2
              rw [h2]
              simp [List.filter_cons, hb0]
          · right
            simp [List.filter_cons, hb0]
            right
            simpa using htgt
      · simp only [hchk, if_false] at h
        exact absurd h (by simp)
    · simp only [hb0, if_false] at h
      rcases List.mem_cons.mp he with he0 | herest
      · subst he0
        exact absurd hb (by simp [hb0])
      · have := ih _ _ h e herest hb d hd
        rcases this with hout | htgt
        · exact Or.inl hout
        · right
          simp [List.filter_cons, hb0]
          simpa using htgt

/-- Reaching a builtin entry one of whose dependency targets is neither an
output already present in the build file nor a target of an earlier builtin
entry makes the entry loop fail with `GraphIntegrityError` (an even earlier
violation yields the same error, since there is only one). -/
theorem prepGo_err (pre : List Entry) (e : Entry) (post : List Entry)
    (hb : e.is_builtin = true) (d : String) (hd : d ∈ e.deps) :
    ∀ (nj : Ninja) (libs : List (String × String)),
      gen_out_file_name d ∉ nj.edges.flatMap NinjaEdge.outputs →
      gen_out_file_name d ∉ (pre.filter Entry.is_builtin).map (fun x => gen_out_file_name x.path) →
      prepGo (pre ++ e :: post) nj libs = .error .graphIntegrity := by
  induction pre with
  | nil =>
    intro nj libs hout _
    simp only [List.nil_append]
    unfold prepGo
    simp only [hb, if_true]
    unfold Ninja.add_build
    cases hall : (e.deps.map gen_out_file_name).all
        (fun x => (nj.edges.flatMap NinjaEdge.outputs).contains x) with
    | true =>
      exfalso
      have := (List.all_eq_true.mp hall) _ (List.mem_map_of_mem _ hd)
      exact hout (List.mem_of_elem_eq_true this)
    | false =>
      simp only [hall, Bool.false_eq_true, if_false]
  | cons e0 pre' ih =>
    intro nj libs hout htgt
    show prepGo (e0 :: (pre' ++ e :: post)) nj libs = .error .graphIntegrity
    unfold prepGo
    by_cases hb0 : e0.is_builtin = true
    · simp only [hb0, if_true]
      unfold Ninja.add_build
      cases hall : (e0.deps.map gen_out_file_name).all
          (fun x => (nj.edges.flatMap NinjaEdge.outputs).contains x) with
      | false =>
        simp only [hall, Bool.false_eq_true, if_false]
      | true =>
        simp only [hall, if_true]
        have htgt' := htgt
        simp only [List.filter_cons, hb0, if_true, List.map_cons, List.mem_cons,
          not_or] at htgt'
        apply ih
        · intro hmem
          simp only [List.flatMap_append, List.flatMap_cons, List.flatMap_nil,
            List.mem_append] at hmem
          rcases hmem with h1 | h2
          · exact hout h1
          · simp only [List.append_nil, List.mem_cons, List.not_mem_nil, or_false] at h2
            exact htgt'.1 h2
        · exact htgt'.2
    · simp only [hb0, if_false]
      apply ih nj libs hout
      have htgt' := htgt
      simp only [List.filter_cons, hb0, if_false] at htgt'
      exact htgt'

/-- C3: if some builtin entry lists a dependency whose target identity was
never emitted as an output of any edge — because the dependency refers to a
non-builtin entry, to an entry appearing only later in the blueprint
(out-of-order), or to no entry at all, no earlier edge outputs it — graph
construction itself fails with the fatal `GraphIntegrityError` (before any
external executor runs). -/
theorem C3_graph_integrity (entries : List Entry) (cmp_log : String)
    (h : ∃ pre e post, entries = pre ++ e :: post ∧ e.is_builtin = true ∧
      ∃ d ∈ e.deps, gen_out_file_name d ∉
        (pre.filter Entry.is_builtin).map (fun x => gen_out_file_name x.path)) :
    prepare_compilation cmp_log entries = .error .graphIntegrity := by
  obtain ⟨pre, e, post, hsplit, hb, d, hd, htgt⟩ := h
  subst hsplit
  exact prepGo_err pre e post hb d hd (msimInitNinja cmp_log) []
    (by simp [msimInitNinja]) htgt

/-- Witness for C3 on the out-of-order blueprint: `b.vhd` depends on `a.vhd`,
whose own entry appears only later, and construction fails. -/
theorem C3_graph_integrity_witness :
    prepare_compilation "out/compile.log" c3Entries = .error .graphIntegrity :=
  C3_graph_integrity c3Entries "out/compile.log"
    ⟨[], Entry.init "vhdl" "work" "b.vhd" ["a.vhd"],
      [Entry.init "vhdl" "work" "a.vhd" []], rfl, by decide, "a.vhd",
      by decide, List.not_mem_nil _⟩

/-! # C7: determinism and collision resistance of the target identity -/

/-- SHA-1 test vector: `sha1('abc')`. -/
theorem sha1_abc : sha1 [97, 98, 99] = 0xa9993e364706816aba3e25717850c26c9cd0d89d := by
  decide

/-- SHA-1 test vector: the empty message. -/
theorem sha1_nil : sha1 [] = 0xda39a3ee5e6b4b0d3255bfef95601890afd80709 := by
  decide

set_option maxHeartbeats 1000000 in
/-- SHA-1 test vector crossing a block boundary (56-byte message). -/
theorem sha1_two_blocks :
    hexdigest (utf8Bytes "abcdbcdecdefdefgefghfghighijhijkijkljklmklmnlmnomnopnopq")
      = "84983e441c3bd26ebaae4aa1f95129e5e54670f1" := by
  decide

theorem chainB_cons (p x : Nat) (rest : List Nat) :
    chainB p (x :: rest) = (Nat.blt p x && chainB x rest) := by
  show forceNat x (fun xv => Nat.blt p xv && chainB xv rest) = _
  rw [forceNat_eq]

theorem chainB_chain (l : List Nat) : ∀ p, chainB p l = true → List.Chain (· < ·) p l := by
  induction l with
  | nil =>
    intro p _
    exact List.Chain.nil
  | cons x rest ih =>
    intro p h
    rw [chainB_cons] at h
    obtain ⟨h1, h2⟩ := (Bool.and_eq_true _ _).mp h
    refine List.Chain.cons ?_ (ih x h2)
    rw [← Nat.blt_eq]
    exact h1

theorem chunkOk_chain (c : List Nat) (h : chunkOk c = true) :
    List.Chain' (· < ·) (c.map hOf) := by
  cases c with
  | nil => simp
  | cons x rest =>
    have h' : forceNat (hOf x) (fun xv => chainB xv (rest.map hOf)) = true := h
    rw [forceNat_eq] at h'
    exact chainB_chain (rest.map hOf) (hOf x) h' 

/-- Glue two strictly-increasing hash scans across a known boundary. -/
theorem chain_glue (c1 c2 : List Nat) (a b : Nat)
    (h1 : List.Chain' (· < ·) (c1.map hOf)) (h2 : List.Chain' (· < ·) (c2.map hOf))
    (hl : c1.getLast? = some a) (hh : c2.head? = some b) (hab : hOf a < hOf b) :
    List.Chain' (· < ·) ((c1 ++ c2).map hOf) := by
  rw [List.map_append]
  refine List.Chain'.append h1 h2 ?_
  intro x hx y hy
  rw [List.getLast?_map, hl] at hx
  rw [List.head?_map, hh] at hy
  simp only [Option.map_some', Option.mem_def, Option.some.injEq] at hx hy
  omega

set_option maxHeartbeats 100000000 in
/-- Strictly-increasing scan of sub-list 0. -/
theorem c7chk0 : chunkOk c7Idx0 = true := by decide

set_option maxHeartbeats 100000000 in
/-- Strictly-increasing scan of sub-list 1. -/
theorem c7chk1 : chunkOk c7Idx1 = true := by decide

set_option maxHeartbeats 100000000 in
/-- Strictly-increasing scan of sub-list 2. -/
theorem c7chk2 : chunkOk c7Idx2 = true := by decide

set_option maxHeartbeats 100000000 in
/-- Strictly-increasing scan of sub-list 3. -/
theorem c7chk3 : chunkOk c7Idx3 = true := by decide

set_option maxHeartbeats 100000000 in
/-- Strictly-increasing scan of sub-list 4. -/
theorem c7chk4 : chunkOk c7Idx4 = true := by decide

/-- Boundary comparisons between the five scans. -/
theorem c7bnd1 : Nat.blt (hOf 4270) (hOf 8494) = true := by decide

theorem c7bnd2 : Nat.blt (hOf 1695) (hOf 9018) = true := by decide

theorem c7bnd3 : Nat.blt (hOf 301) (hOf 5489) = true := by decide

theorem c7bnd4 : Nat.blt (hOf 5434) (hOf 6575) = true := by decide

/-- The full index list is scanned in strictly increasing hash order. -/
theorem c7_chain : List.Chain' (· < ·) (c7Idx.map hOf) := by
  have h0 := chunkOk_chain c7Idx0 c7chk0
  have h1 := chunkOk_chain c7Idx1 c7chk1
  have h2 := chunkOk_chain c7Idx2 c7chk2
  have h3 := chunkOk_chain c7Idx3 c7chk3
  have h4 := chunkOk_chain c7Idx4 c7chk4
  have hb1 : hOf 4270 < hOf 8494 := by rw [← Nat.blt_eq]; exact c7bnd1
  have hb2 : hOf 1695 < hOf 9018 := by rw [← Nat.blt_eq]; exact c7bnd2
  have hb3 : hOf 301 < hOf 5489 := by rw [← Nat.blt_eq]; exact c7bnd3
  have hb4 : hOf 5434 < hOf 6575 := by rw [← Nat.blt_eq]; exact c7bnd4
  show List.Chain' (· < ·) ((c7Idx0 ++ (c7Idx1 ++ (c7Idx2 ++ (c7Idx3 ++ c7Idx4)))).map hOf)
  refine chain_glue _ _ 4270 8494 h0 ?_ (by rfl) (by rfl) hb1
  refine chain_glue _ _ 1695 9018 h1 ?_ (by rfl) (by rfl) hb2
  refine chain_glue _ _ 301 5489 h2 ?_ (by rfl) (by rfl) hb3
  exact chain_glue _ _ 5434 6575 h3 h4 (by rfl) (by rfl) hb4

/-! # Injectivity of the identity's hash fragment -/

theorem hexChar_injOn : ∀ a, a < 16 → ∀ b, b < 16 → hexChar a = hexChar b → a = b := by
  decide

theorem hexN_length (f : Nat) : ∀ x, (hexN f x).length = f := by
  induction f with
  | zero => intro x; rfl
  | succ f ih =>
    intro x
    unfold hexN
    rw [List.length_cons, ih]

theorem hexN_inj (f : Nat) : ∀ a b, a < 16 ^ f → b < 16 ^ f → hexN f a = hexN f b → a = b := by
  induction f with
  | zero =>
    intro a b ha hb _
    simp [Nat.pow_zero] at ha hb
    omega
  | succ f ih =>
    intro a b ha hb h
    unfold hexN at h
    injection h with hhd htl
    have hp : 0 < 16 ^ f := Nat.pos_pow_of_pos f (by omega)
    have hda : a / 16 ^ f % 16 < 16 := Nat.mod_lt _ (by omega)
    have hdb : b / 16 ^ f % 16 < 16 := Nat.mod_lt _ (by omega)
    have hd := hexChar_injOn _ hda _ hdb hhd
    have ht := ih _ _ (Nat.mod_lt _ hp) (Nat.mod_lt _ hp) htl
    have e1 := Nat.div_add_mod a (16 ^ f)
    have e2 := Nat.div_add_mod b (16 ^ f)
    have hqa : a / 16 ^ f < 16 := by
      rw [Nat.div_lt_iff_lt_mul hp]
      rw [Nat.pow_succ] at ha
      omega
    have hqb : b / 16 ^ f < 16 := by
      rw [Nat.div_lt_iff_lt_mul hp]
      rw [Nat.pow_succ] at hb
      omega
    rw [Nat.mod_eq_of_lt hqa, Nat.mod_eq_of_lt hqb] at hd
    calc a = 16 ^ f * (a / 16 ^ f) + a % 16 ^ f := (Nat.div_add_mod a _).symm
    _ = 16 ^ f * (b / 16 ^ f) + b % 16 ^ f := by rw [hd, ht]
    _ = b := Nat.div_add_mod b _

theorem hexN_take (k : Nat) : ∀ f x, k ≤ f → (hexN f x).take k = hexN k (x / 16 ^ (f - k)) := by
  induction k with
  | zero =>
    intro f x _
    rfl
  | succ k ih =>
    intro f x hk
    cases f with
    | zero => omega
    | succ f =>
      have hkf : k ≤ f := Nat.le_of_succ_le_succ hk
      have hpow : 16 ^ (f - k) * 16 ^ k = 16 ^ f := by
        rw [← Nat.pow_add]
        congr 1
        omega
      show (hexChar (x / 16 ^ f % 16) :: hexN f (x % 16 ^ f)).take (k + 1)
          = hexN (k + 1) (x / 16 ^ (f + 1 - (k + 1)))
      rw [List.take_cons (by omega)]
      have hfk : f + 1 - (k + 1) = f - k := by omega
      rw [hfk]
      show _ = hexChar (x / 16 ^ (f - k) / 16 ^ k % 16) :: hexN k (x / 16 ^ (f - k) % 16 ^ k)
      have hhd : x / 16 ^ (f - k) / 16 ^ k = x / 16 ^ f := by
        rw [Nat.div_div_eq_div_mul, hpow]
      have htl : (x % 16 ^ f) / 16 ^ (f - k) = x / 16 ^ (f - k) % 16 ^ k := by
        rw [← hpow]
        exact Nat.mod_mul_right_div_self x (16 ^ (f - k)) (16 ^ k)
      rw [hhd]
      simp only [Nat.add_sub_cancel]
      rw [ih f (x % 16 ^ f) hkf, htl]

theorem land_M32_lt (x : Nat) : Nat.land x M32 < 2 ^ 32 :=
  Nat.lt_of_le_of_lt Nat.and_le_right (by decide)

theorem shl_lt160 (x k s : Nat) (hx : x < 2 ^ k) (hks : k + s ≤ 160) :
    Nat.shiftLeft x s < 2 ^ 160 := by
  show x <<< s < 2 ^ 160
  rw [Nat.shiftLeft_eq]
  have h1 : x * 2 ^ s < 2 ^ k * 2 ^ s :=
    (Nat.mul_lt_mul_right (Nat.pos_pow_of_pos s (by omega))).mpr hx
  have h2 : 2 ^ k * 2 ^ s ≤ 2 ^ 160 := by
    rw [← Nat.pow_add]
    exact Nat.pow_le_pow_right (by omega) hks
  omega

theorem sha1block_lt (h block : Nat) : sha1block h block < 2 ^ 160 := by
  unfold sha1block
  refine Nat.or_lt_two_pow (shl_lt160 _ 32 128 (land_M32_lt _) (by omega))
    (Nat.or_lt_two_pow (shl_lt160 _ 32 96 (land_M32_lt _) (by omega))
      (Nat.or_lt_two_pow (shl_lt160 _ 32 64 (land_M32_lt _) (by omega))
        (Nat.or_lt_two_pow (shl_lt160 _ 32 32 (land_M32_lt _) (by omega))
          (Nat.lt_of_lt_of_le (land_M32_lt _) (by norm_num)))))

theorem blocksLoop_lt (fuel : Nat) : ∀ h m bits, h < 2 ^ 160 → blocksLoop fuel h m bits < 2 ^ 160 := by
  induction fuel with
  | zero =>
    intro h m bits hh
    exact hh
  | succ f ih =>
    intro h m bits _
    exact ih _ m (bits - 512) (sha1block_lt _ _)

theorem sha1_lt (msg : List Nat) : sha1 msg < 2 ^ 160 := by
  unfold sha1
  exact blocksLoop_lt _ _ _ _ (by norm_num)

theorem h32_lt (p : String) : h32 p < 2 ^ 32 := by
  show sha1 (utf8Bytes p) >>> 128 < 2 ^ 32
  rw [Nat.shiftRight_eq_div_pow]
  have := sha1_lt (utf8Bytes p)
  omega

theorem take8_hexdigest (msg : List Nat) :
    ((hexdigest msg).take 8).data = hexN 8 (sha1 msg / 2 ^ 128) := by
  have hdd : (hexdigest msg).data = hexN 40 (sha1 msg) := rfl
  rw [String.data_take, hdd, hexN_take 8 40 _ (by omega)]
  norm_num

/-- Equal target identities force equal truncated digests. -/
theorem gen_eq_h32_eq (p q : String) (h : gen_out_file_name p = gen_out_file_name q) :
    h32 p = h32 q := by
  unfold gen_out_file_name at h
  have hd := congrArg String.data h
  simp only [String.data_append] at hd
  have hlen : ((hexdigest (utf8Bytes p)).take 8).data.length
      = ((hexdigest (utf8Bytes q)).take 8).data.length := by
    rw [take8_hexdigest, take8_hexdigest, hexN_length, hexN_length]
  have hinj := (List.append_inj' hd hlen).2
  rw [take8_hexdigest, take8_hexdigest] at hinj
  have hlt1 : sha1 (utf8Bytes p) / 2 ^ 128 < 16 ^ 8 := by
    have := sha1_lt (utf8Bytes p)
    norm_num
    omega
  have hlt2 : sha1 (utf8Bytes q) / 2 ^ 128 < 16 ^ 8 := by
    have := sha1_lt (utf8Bytes q)
    norm_num
    omega
  have := hexN_inj 8 _ _ hlt1 hlt2 hinj
  show sha1 (utf8Bytes p) >>> 128 = sha1 (utf8Bytes q) >>> 128
  rw [Nat.shiftRight_eq_div_pow, Nat.shiftRight_eq_div_pow]
  exact this

/-- C7: the target identity is a pure function of the path string (repeated
applications agree), and over the ten-thousand-path corpus, all sharing one
basename, any two distinct paths receive distinct identities. -/
theorem C7_target_identity :
    (∀ p : String, gen_out_file_name p = gen_out_file_name p) ∧
    c7Corpus.length = 10000 ∧
    c7Corpus.Nodup ∧
    (∀ p1 ∈ c7Corpus, ∀ p2 ∈ c7Corpus, p1 ≠ p2 →
      gen_out_file_name p1 ≠ gen_out_file_name p2) := by
  have hmap : c7Corpus.map h32 = c7Idx.map hOf := by
    unfold c7Corpus
    rw [List.map_map]
    rfl
  have hnd : (c7Corpus.map h32).Nodup := by
    rw [hmap]
    exact (List.chain'_iff_pairwise.mp c7_chain).imp Nat.ne_of_lt
  have hlen0 : c7Idx0.length = 2000 := by rfl
  have hlen1 : c7Idx1.length = 2000 := by rfl
  have hlen2 : c7Idx2.length = 2000 := by rfl
  have hlen3 : c7Idx3.length = 2000 := by rfl
  have hlen4 : c7Idx4.length = 2000 := by rfl
  refine ⟨fun _ => rfl, ?_, List.Nodup.of_map h32 hnd, ?_⟩
  · unfold c7Corpus c7Idx
    rw [List.length_map]
    simp only [List.length_append]
    rw [hlen0, hlen1, hlen2, hlen3, hlen4]
  · intro p1 h1 p2 h2 hne hgen
    exact hne (List.inj_on_of_nodup_map hnd h1 h2 (gen_eq_h32_eq p1 p2 hgen))

/-- Witness for C7 at two concrete corpus paths. -/
theorem C7_target_identity_witness :
    gen_out_file_name (c7Path 3030) ≠ gen_out_file_name (c7Path 8227) :=
  C7_target_identity.2.2.2 (c7Path 3030)
    (List.mem_map_of_mem c7Path (by decide))
    (c7Path 8227)
    (List.mem_map_of_mem c7Path (by decide))
    (by decide)
